import Mathlib

/-!
Shallow embedding of the crowd-control arena simulation
(src/config/settings.py, src/entities/player.py, src/entities/platform.py,
src/entities/powerup.py, src/entities/ai_player.py, src/core/physics.py,
src/systems/screenshake.py, src/scenes/game_scene.py), together with
theorems settling the specification claims.

Modelling conventions:
* Python floats are modelled as real numbers; comparisons on reals are
  resolved classically, so most definitions are noncomputable.
* External inputs (the keyboard read by pygame.key.get_pressed, and the
  random module) are passed in as explicit oracle parameters.
* Code that can raise a Python exception (pygame Vector2.normalize on a
  zero-length vector, list indexing out of range) is modelled with Option:
  a result of none is a raised exception aborting the frame.
* Fields and subsystems that are consumed only by rendering or audio
  (trail points, glow pulse, particle emission, sound calls, HUD, VFX,
  replay recording) are omitted: per the specification they are external
  collaborators that never feed back into simulation state.
-/

set_option autoImplicit false

open Classical

namespace CrowdControl

/-! ## Constants from src/config/settings.py -/

def SCREEN_WIDTH : ℝ := 1280
def SCREEN_HEIGHT : ℝ := 720
def PLAYER_RADIUS : ℝ := 20
def PLAYER_SPEED : ℝ := 300
def PLAYER_DASH_SPEED : ℝ := 600
def PLAYER_DASH_DURATION : ℝ := 150
def PLAYER_DASH_COOLDOWN : ℝ := 1000
def PLATFORM_START_RADIUS : ℝ := 300
def PLATFORM_MIN_RADIUS : ℝ := 100
def SHRINK_START_TIME : ℝ := 10000
def SHRINK_RATE : ℝ := 20
def FRICTION : ℝ := 0.92
def COLLISION_PUSH : ℝ := 250

/-! ## 2D vectors (pygame.math.Vector2) -/

/-- A 2D vector, as used by pygame.math.Vector2. -/
abbrev Vec2 : Type := ℝ × ℝ

/-- Componentwise vector sum. -/
def vadd (a b : Vec2) : Vec2 := (a.1 + b.1, a.2 + b.2)

/-- Componentwise vector difference. -/
def vsub (a b : Vec2) : Vec2 := (a.1 - b.1, a.2 - b.2)

/-- Scaling of a vector by a scalar. -/
def vscale (c : ℝ) (a : Vec2) : Vec2 := (c * a.1, c * a.2)

/-- Euclidean length of a vector (pygame Vector2.length). -/
noncomputable def vlen (a : Vec2) : ℝ := Real.sqrt (a.1 ^ 2 + a.2 ^ 2)

@[simp] theorem vlen_zero : vlen (0, 0) = 0 := by
  simp [vlen]

/-! ## Combatant state (src/entities/player.py, class Player) -/

/-- Boolean state of the logical actions read from the external input
collaborator for one combatant (pygame key states filtered through the
combatant's control binding). -/
structure Keys where
  up : Bool
  down : Bool
  left : Bool
  right : Bool
  dash : Bool

/-- The all-keys-released input. -/
def noKeys : Keys := ⟨false, false, false, false, false⟩

/-- Combatant state, from Player.__init__.  Rendering-only fields
(trail_points, max_trail_length, glow_pulse, render_count) and the opaque
control binding are omitted; the control binding is modelled by addressing
the input oracle with the combatant's index. -/
structure Player where
  pos : Vec2
  vel : Vec2
  player_id : ℕ
  radius : ℝ
  alive : Bool
  is_dashing : Bool
  dash_time : ℝ
  dash_cooldown : ℝ
  dash_direction : Vec2
  dash_charges : ℤ
  max_dash_charges : ℤ
  kills : ℕ
  deaths : ℕ
  buffered_dash : Bool
  buffer_time : ℝ

/-- Player.start_dash.  pygame Vector2.normalize raises ValueError on a
zero-length vector, which aborts the frame: modelled as none.  In the
source the exception is raised after the charge bookkeeping has mutated
the object, but the frame dies with the exception, so the lost partial
mutation is unobservable and the pre-call state is returned inside none. -/
noncomputable def Player.start_dash (p : Player) (dir_x dir_y : ℝ) : Option Player :=
  if p.dash_charges ≤ 0 then some p
  else
    let charges := p.dash_charges - 1
    let len := Real.sqrt (dir_x ^ 2 + dir_y ^ 2)
    if len = 0 then none
    else some { p with
      is_dashing := true
      dash_time := 0
      dash_charges := charges
      dash_cooldown := if charges = 0 then PLAYER_DASH_COOLDOWN else p.dash_cooldown
      dash_direction := (dir_x / len, dir_y / len) }

/-- Player.update, dash-cooldown-and-recharge block (player.py lines 63-68). -/
noncomputable def Player.updateCooldown (dt : ℝ) (p : Player) : Player :=
  if 0 < p.dash_cooldown then
    let cd := p.dash_cooldown - dt
    if cd ≤ 0 ∧ p.dash_charges < p.max_dash_charges then
      { p with dash_charges := p.dash_charges + 1, dash_cooldown := PLAYER_DASH_COOLDOWN }
    else { p with dash_cooldown := cd }
  else p

/-- Player.update, input-buffer block (player.py lines 70-74). -/
noncomputable def Player.updateBuffer (dt : ℝ) (p : Player) : Player :=
  if 0 < p.buffer_time then
    let bt := p.buffer_time - dt
    if bt ≤ 0 then { p with buffer_time := bt, buffered_dash := false }
    else { p with buffer_time := bt }
  else p

/-- Movement intent from the pressed keys, before diagonal normalization:
x component from left/right, y component from up/down. -/
def moveOf (keys : Keys) : ℝ × ℝ :=
  ((if keys.right then 1 else 0) - (if keys.left then 1 else 0),
   (if keys.down then 1 else 0) - (if keys.up then 1 else 0))

/-- Player.update, dash-trigger block (player.py lines 117-125): on the
dash key with a charge available and no pending buffer, dash immediately
when there is movement intent, otherwise arm the 100 ms input buffer. -/
noncomputable def Player.dashTrigger (keys : Keys) (move_x move_y : ℝ)
    (p1 : Player) : Option Player :=
  if keys.dash then
    if 0 < p1.dash_charges ∧ p1.buffered_dash = false then
      if move_x ≠ 0 ∨ move_y ≠ 0 then p1.start_dash move_x move_y
      else some { p1 with buffered_dash := true, buffer_time := 100 }
    else some p1
  else some p1

/-- Player.update, buffered-dash block (player.py lines 127-130): fire a
buffered dash as soon as movement intent becomes nonzero. -/
noncomputable def Player.bufferedFire (move_x move_y : ℝ) (p2 : Player) : Option Player :=
  if p2.buffered_dash = true ∧ (move_x ≠ 0 ∨ move_y ≠ 0) then
    (p2.start_dash move_x move_y).map fun p3 => { p3 with buffered_dash := false }
  else some p2

/-- Player.update, dashing-or-normal-movement branch (player.py lines
79-130): while dashing, accumulate dash time and blend velocity toward
the dash direction; otherwise integrate movement intent toward a target
velocity and handle the dash trigger and the buffered dash. -/
noncomputable def Player.dashPhase (keys : Keys) (dt : ℝ) (p : Player) : Option Player :=
  let dt_sec := dt / 1000
  if p.is_dashing then
    let t := p.dash_time + dt
    if PLAYER_DASH_DURATION ≤ t then
      some { p with is_dashing := false, dash_time := 0 }
    else
      let dash_vel := vscale PLAYER_DASH_SPEED p.dash_direction
      some { p with dash_time := t,
                    vel := vadd (vscale 0.1 p.vel) (vscale 0.9 dash_vel) }
  else
    let m := moveOf keys
    let move_x := if m.1 ≠ 0 ∧ m.2 ≠ 0 then m.1 * 0.707 else m.1
    let move_y := if m.1 ≠ 0 ∧ m.2 ≠ 0 then m.2 * 0.707 else m.2
    let accel := 15 * dt_sec
    let vel1 : Vec2 := (p.vel.1 + (move_x * PLAYER_SPEED - p.vel.1) * accel,
                        p.vel.2 + (move_y * PLAYER_SPEED - p.vel.2) * accel)
    let p1 := { p with vel := vel1 }
    (p1.dashTrigger keys move_x move_y).bind (Player.bufferedFire move_x move_y)

/-- Player.update, closing physics block (player.py lines 132-146):
friction, velocity clamp, position integration and screen-bounds clamp. -/
noncomputable def Player.physicsPhase (dt : ℝ) (p : Player) : Player :=
  let dt_sec := dt / 1000
  let v1 := vscale FRICTION p.vel
  let v2 := if 800 < vlen v1 then vscale (800 / vlen v1) v1 else v1
  let pos1 := vadd p.pos (vscale dt_sec v2)
  let pos2 : Vec2 := (max (-50) (min (SCREEN_WIDTH + 50) pos1.1),
                      max (-50) (min (SCREEN_HEIGHT + 50) pos1.2))
  { p with vel := v2, pos := pos2 }

/-- Player.update (player.py lines 56-151): no-op when dead, otherwise
cooldown block, buffer block, dash-or-movement branch, physics block. -/
noncomputable def Player.update (keys : Keys) (dt : ℝ) (p : Player) : Option Player :=
  if p.alive = false then some p
  else (((p.updateCooldown dt).updateBuffer dt).dashPhase keys dt).map (Player.physicsPhase dt)

/-- Player.eliminate. -/
def Player.eliminate (p : Player) : Player :=
  { p with alive := false, deaths := p.deaths + 1 }

/-- Player.__init__(x, y, color, player_id, controls): fresh combatant at
a spawn position, one dash charge of a maximum of two. -/
def Player.init (x y : ℝ) (pid : ℕ) : Player :=
  { pos := (x, y), vel := (0, 0), player_id := pid, radius := PLAYER_RADIUS,
    alive := true, is_dashing := false, dash_time := 0, dash_cooldown := 0,
    dash_direction := (0, 0), dash_charges := 1, max_dash_charges := 2,
    kills := 0, deaths := 0, buffered_dash := false, buffer_time := 0 }

/-! ## Platform (src/entities/platform.py) -/

/-- Shrinking circular platform.  The unused field shrinking is omitted. -/
structure Platform where
  center : Vec2
  radius : ℝ
  min_radius : ℝ

/-- Platform.update: shrink by SHRINK_RATE scaled to seconds, clamped at
the minimum radius, only while above the minimum. -/
noncomputable def Platform.update (dt : ℝ) (pl : Platform) : Platform :=
  if pl.min_radius < pl.radius then
    { pl with radius := max (pl.radius - SHRINK_RATE * (dt / 1000)) pl.min_radius }
  else pl

/-- Platform.__init__: centered on the screen at the starting radius. -/
noncomputable def Platform.init : Platform :=
  { center := (SCREEN_WIDTH / 2, SCREEN_HEIGHT / 2),
    radius := PLATFORM_START_RADIUS, min_radius := PLATFORM_MIN_RADIUS }

/-- core/physics.py circle_contains_point, as used by
Platform.contains_point: squared-distance comparison. -/
def Platform.contains_point (pl : Platform) (q : Vec2) : Prop :=
  (q.1 - pl.center.1) ^ 2 + (q.2 - pl.center.2) ^ 2 ≤ pl.radius ^ 2

/-! ## Screen shake / hit-stop (src/systems/screenshake.py) -/

/-- Trauma and hit-stop state of the external time-distortion collaborator.
Fields used only by the rendering offsets (max_offset, max_angle,
shake_frequency) are omitted. -/
structure ScreenShake where
  trauma : ℝ
  trauma_decay : ℝ
  time : ℝ
  hitstop_duration : ℝ
  hitstop_elapsed : ℝ

/-- ScreenShake.update: during a hit-stop window, advance the window and
return the frame delta slowed to 10 percent; otherwise decay trauma and
return the delta unchanged. -/
noncomputable def ScreenShake.update (dt : ℝ) (s : ScreenShake) : ScreenShake × ℝ :=
  if s.hitstop_elapsed < s.hitstop_duration then
    ({ s with hitstop_elapsed := s.hitstop_elapsed + dt }, dt * 0.1)
  else
    ({ s with trauma := max 0 (s.trauma - s.trauma_decay * dt / 1000),
              time := s.time + dt }, dt)

/-- ScreenShake.add_trauma. -/
noncomputable def ScreenShake.add_trauma (amount : ℝ) (s : ScreenShake) : ScreenShake :=
  { s with trauma := min 1 (s.trauma + amount) }

/-- ScreenShake.hitstop. -/
def ScreenShake.setHitstop (duration : ℝ) (s : ScreenShake) : ScreenShake :=
  { s with hitstop_duration := duration, hitstop_elapsed := 0 }

/-! ## Power-ups (src/entities/powerup.py) -/

/-- Power-up types enumeration (class PowerUpType). -/
inductive PowerUpType where
  | speed_boost
  | shield
  | size_up
  | size_down
  | triple_dash
  | teleport
  | freeze
  | magnet
deriving DecidableEq

/-- Power-up pickup entity (class PowerUp).  Rendering-only fields
(float_offset, rotation, the color table) are omitted. -/
structure PowerUp where
  pos : Vec2
  type : PowerUpType
  radius : ℝ
  active : Bool
  lifetime : ℝ
  age : ℝ

/-- PowerUp.__init__(x, y, powerup_type). -/
def mkPowerUp (x y : ℝ) (t : PowerUpType) : PowerUp :=
  { pos := (x, y), type := t, radius := 15, active := true, lifetime := 15000, age := 0 }

/-- PowerUp.update: age the pickup; returns the updated record and the
keep-alive boolean the manager filters on (False once inactive or past
its lifetime). -/
noncomputable def PowerUp.update (dt : ℝ) (pu : PowerUp) : PowerUp × Bool :=
  if pu.active = false then (pu, false)
  else
    let a := pu.age + dt
    if pu.lifetime ≤ a then ({ pu with age := a, active := false }, false)
    else ({ pu with age := a }, true)

/-- PowerUp.check_pickup: an inactive pickup never matches; otherwise
circle overlap between the pickup and the combatant. -/
noncomputable def PowerUp.check_pickup (pu : PowerUp) (p : Player) : Prop :=
  pu.active = true ∧ vlen (vsub p.pos pu.pos) < pu.radius + p.radius

/-- Spawn scheduler and collection manager (class PowerUpManager). -/
structure PowerUpManager where
  powerups : List PowerUp
  spawn_timer : ℝ
  spawn_interval : ℝ

/-- PowerUpManager.__init__: no pickups, timer zero, 8 second interval. -/
def PowerUpManager.init : PowerUpManager :=
  { powerups := [], spawn_timer := 0, spawn_interval := 8000 }

/-- PowerUpManager.spawn_random, with the two random.uniform draws
(angle in degrees, distance from the platform center) and the
random.choice of the type passed in as an oracle. -/
noncomputable def PowerUpManager.spawn_random (oracle : ℝ × ℝ × PowerUpType)
    (plat : Platform) (m : PowerUpManager) : PowerUpManager :=
  let x := plat.center.1 + Real.cos (oracle.1 * Real.pi / 180) * oracle.2.1
  let y := plat.center.2 + Real.sin (oracle.1 * Real.pi / 180) * oracle.2.1
  { m with powerups := m.powerups ++ [mkPowerUp x y oracle.2.2] }

/-- PowerUpManager.update: accumulate the spawn timer; on reaching the
interval reset it and spawn one pickup if fewer than 3 are present; then
age every pickup and drop the expired ones. -/
noncomputable def PowerUpManager.update (dt : ℝ) (oracle : ℝ × ℝ × PowerUpType)
    (plat : Platform) (m : PowerUpManager) : PowerUpManager :=
  let m1 := { m with spawn_timer := m.spawn_timer + dt }
  let m2 :=
    if m1.spawn_interval ≤ m1.spawn_timer then
      let m1' := { m1 with spawn_timer := 0 }
      if m1'.powerups.length < 3 then m1'.spawn_random oracle plat else m1'
    else m1
  { m2 with powerups := ((m2.powerups.map (PowerUp.update dt)).filter (·.2)).map (·.1) }

/-- PowerUpManager.check_pickups on the underlying list: return the type
of the first matching active pickup and the list with exactly that
element removed, or none with the list unchanged. -/
noncomputable def checkPickupsList (pl : Player) : List PowerUp → Option PowerUpType × List PowerUp
  | [] => (none, [])
  | pu :: rest =>
    if pu.check_pickup pl then (some pu.type, rest)
    else
      let r := checkPickupsList pl rest
      (r.1, pu :: r.2)

/-- PowerUpManager.check_pickups. -/
noncomputable def PowerUpManager.check_pickups (m : PowerUpManager) (pl : Player) :
    Option PowerUpType × PowerUpManager :=
  let r := checkPickupsList pl m.powerups
  (r.1, { m with powerups := r.2 })

/-! ## Collision physics (src/core/physics.py) -/

/-- check_collision: squared center distance strictly below the squared
radius sum. -/
def check_collision (e1 e2 : Player) : Prop :=
  let dx := e2.pos.1 - e1.pos.1
  let dy := e2.pos.2 - e1.pos.2
  dx * dx + dy * dy < (e1.radius + e2.radius) * (e1.radius + e2.radius)

/-- The center distance computed at the start of resolve_collision
(physics.py lines 55-57). -/
noncomputable def centerDistance (e1 e2 : Player) : ℝ :=
  Real.sqrt ((e2.pos.1 - e1.pos.1) * (e2.pos.1 - e1.pos.1)
    + (e2.pos.2 - e1.pos.2) * (e2.pos.2 - e1.pos.2))

/-- resolve_collision(entity1, entity2, dt_multiplier).  The uniformly
random fallback angle used when the centers coincide is passed in as an
oracle.  Returns the updated pair (entity1, entity2). -/
noncomputable def resolve_collision (angle : ℝ) (e1 e2 : Player) (dt_multiplier : ℝ) :
    Player × Player :=
  let dx0 := e2.pos.1 - e1.pos.1
  let dy0 := e2.pos.2 - e1.pos.2
  let dist0 := Real.sqrt (dx0 * dx0 + dy0 * dy0)
  let dx := if dist0 < 0.0001 then Real.cos angle else dx0
  let dy := if dist0 < 0.0001 then Real.sin angle else dy0
  let distance := if dist0 < 0.0001 then 0.0001 else dist0
  let nx := dx / distance
  let ny := dy / distance
  let min_distance := e1.radius + e2.radius
  let overlap := min_distance - distance
  let correction := overlap * 0.6
  let p1 : Vec2 := (e1.pos.1 - nx * correction, e1.pos.2 - ny * correction)
  let p2 : Vec2 := (e2.pos.1 + nx * correction, e2.pos.2 + ny * correction)
  let rel_vel_x := e2.vel.1 - e1.vel.1
  let rel_vel_y := e2.vel.2 - e1.vel.2
  let vel_along_normal := rel_vel_x * nx + rel_vel_y * ny
  if 0 < vel_along_normal then
    ({ e1 with pos := p1 }, { e2 with pos := p2 })
  else
    let restitution : ℝ := 0.7
    let impulse_strength := -(1 + restitution) * vel_along_normal / 2
    let impulse_x := impulse_strength * nx
    let impulse_y := impulse_strength * ny
    let push_force := COLLISION_PUSH * dt_multiplier
    let tangent_x := -ny
    let tangent_y := nx
    let tangent_force := 50 * dt_multiplier
    ({ e1 with pos := p1,
               vel := (e1.vel.1 - impulse_x - nx * push_force + tangent_x * tangent_force,
                       e1.vel.2 - impulse_y - ny * push_force + tangent_y * tangent_force) },
     { e2 with pos := p2,
               vel := (e2.vel.1 + impulse_x + nx * push_force - tangent_x * tangent_force,
                       e2.vel.2 + impulse_y + ny * push_force - tangent_y * tangent_force) })

/-! ## Spatial grid (src/core/physics.py, class SpatialGrid) -/

/-- Uniform grid bucketing entity indices by cell.  Entities are referred
to by their index in the round's player list (the Python code stores
object references). -/
structure SpatialGrid where
  cells : List ((ℤ × ℤ) × List ℕ)

/-- The empty grid (SpatialGrid.clear). -/
def emptyGrid : SpatialGrid := ⟨[]⟩

/-- SpatialGrid._get_cell with the default cell size 100:
int(x // 100) is the floor of x / 100 for a float x. -/
noncomputable def gridCell (pos : Vec2) : ℤ × ℤ :=
  (⌊pos.1 / 100⌋, ⌊pos.2 / 100⌋)

/-- Bucket lookup, empty when the cell is absent. -/
def SpatialGrid.lookup (c : ℤ × ℤ) (g : SpatialGrid) : List ℕ :=
  match g.cells.find? (fun e => e.1 = c) with
  | some e => e.2
  | none => []

/-- SpatialGrid.insert: append the index to the bucket of the entity's
cell, creating the bucket if needed. -/
noncomputable def SpatialGrid.insert (pos : Vec2) (i : ℕ) (g : SpatialGrid) : SpatialGrid :=
  let c := gridCell pos
  if (g.cells.find? (fun e => e.1 = c)).isSome then
    ⟨g.cells.map (fun e => if e.1 = c then (e.1, e.2 ++ [i]) else e)⟩
  else
    ⟨g.cells ++ [(c, [i])]⟩

/-- SpatialGrid.get_nearby: concatenation of the buckets of the 3x3 cell
block around the entity's cell, dx outer and dy inner. -/
noncomputable def SpatialGrid.get_nearby (pos : Vec2) (g : SpatialGrid) : List ℕ :=
  let c := gridCell pos
  ([-1, 0, 1] : List ℤ).flatMap fun dx =>
    ([-1, 0, 1] : List ℤ).flatMap fun dy =>
      g.lookup (c.1 + dx, c.2 + dy)

/-! ## AI state assessment (src/entities/ai_player.py) -/

/-- AI behavior states (class AIState). -/
inductive AIState where
  | aggressive
  | defensive
  | opportunistic
  | survival
deriving DecidableEq

/-- The AI-specific fields of AIPlayer used by state assessment, layered
over the combatant state. -/
structure AIPlayer extends Player where
  danger_threshold : ℝ
  state : AIState

/-- AIPlayer.__init__: a fresh combatant with the AI fields at their
initial values (danger threshold 0.3, opportunistic state). -/
def AIPlayer.init (x y : ℝ) (pid : ℕ) : AIPlayer :=
  { toPlayer := Player.init x y pid, danger_threshold := 0.3,
    state := AIState.opportunistic }

/-- AIPlayer._assess_state.  The Python loop skips the agent itself by
object identity; here the list holds the other combatants.  Returns the
state the method assigns. -/
noncomputable def AIPlayer.assess_state (a : AIPlayer) (others : List Player)
    (plat : Platform) : AIState :=
  let distance_to_edge := plat.radius - vlen (vsub a.pos plat.center)
  let health_ratio := distance_to_edge / plat.radius
  let threats := (others.filter fun p =>
    p.alive && decide (vlen (vsub p.pos a.pos) < 150)).length
  if health_ratio < a.danger_threshold then AIState.survival
  else if 2 ≤ threats then AIState.defensive
  else if threats = 1 then AIState.aggressive
  else AIState.opportunistic

/-! ## Round orchestrator (src/scenes/game_scene.py, class GameScene) -/

/-- Round state of the game scene.  Decorative subsystems (particles,
VFX, trail renderer, impact effects, HUD, sound, replay recorder) are
external collaborators and are omitted; the AI roster is empty in the
scene's shipped configuration (ai_count = 0 in GameScene.__init__, and
the update loop would raise a TypeError for an AI combatant), so it is
omitted as well.  The spatial grid is rebuilt from scratch every frame,
so it is kept frame-local rather than stored here. -/
structure GameScene where
  players : List Player
  platform : Platform
  powerup_manager : PowerUpManager
  screen_shake : ScreenShake
  round_time : ℝ
  game_over : Bool
  winner : Option Player
  scores : List ℕ
  countdown : ℤ
  countdown_time : ℝ
  game_started : Bool
  shrink_warned : Bool
  last_shrink_warning : ℝ

/-- GameScene.update, countdown branch (lines 147-160). -/
noncomputable def GameScene.countdownStep (dt : ℝ) (s : GameScene) : GameScene :=
  let ct := s.countdown_time + dt
  if 1000 ≤ ct then
    let cd := s.countdown - 1
    { s with countdown_time := 0, countdown := cd,
             game_started := if cd ≤ 0 then true else s.game_started }
  else { s with countdown_time := ct }

/-- GameScene._apply_powerup: speed boost grants one dash charge up to
the maximum, triple dash refills to the maximum, every other type is
inert. -/
def GameScene.apply_powerup (t : PowerUpType) (p : Player) : Player :=
  match t with
  | PowerUpType.speed_boost =>
    { p with dash_charges := min p.max_dash_charges (p.dash_charges + 1) }
  | PowerUpType.triple_dash => { p with dash_charges := p.max_dash_charges }
  | _ => p

/-- GameScene._end_round, given the winner as an index into the player
list (alive_players[0] in the source is a reference into that list).
Sets the game-over flag, records the winner, and bumps the winner's
score and kill counter.  An out-of-range score index would raise an
IndexError in Python, modelled as none. -/
noncomputable def GameScene.end_round (wi : Option ℕ) (s : GameScene) : Option GameScene :=
  match wi with
  | none => some { s with game_over := true, winner := none }
  | some i =>
    match s.players.get? i with
    | none => none
    | some w =>
      let w2 := { w with kills := w.kills + 1 }
      if h : w.player_id < s.scores.length then
        some { s with game_over := true,
                      winner := some w2,
                      players := s.players.set i w2,
                      scores := s.scores.set w.player_id (s.scores.get ⟨w.player_id, h⟩ + 1) }
      else none

/-- Mutable state threaded through the per-combatant loop of
GameScene.update (lines 198-224): the player list, the indices collected
into alive_players, the spatial grid being rebuilt, the screen shake
(updated once per alive combatant), and the power-up manager. -/
structure LoopState where
  players : List Player
  aliveIdx : List ℕ
  grid : SpatialGrid
  shake : ScreenShake
  mgr : PowerUpManager

/-- One iteration of the per-combatant loop for the combatant at index i:
skip dead combatants; otherwise obtain the hit-stop-adjusted delta,
update the combatant, apply any claimed power-up, then either eliminate
it (off the platform) or record it as alive and insert it into the grid. -/
noncomputable def GameScene.playerStep (inputs : ℕ → Keys) (dt : ℝ) (plat : Platform)
    (st : LoopState) (i : ℕ) : Option LoopState :=
  (st.players.get? i).bind fun p =>
    if p.alive = true then
      let su := st.shake.update dt
      (p.update (inputs i) su.2).bind fun p1 =>
        let pick := st.mgr.check_pickups p1
        let p2 := match pick.1 with
          | some t => GameScene.apply_powerup t p1
          | none => p1
        if plat.contains_point p2.pos then
          some { players := st.players.set i p2,
                 aliveIdx := st.aliveIdx ++ [i],
                 grid := st.grid.insert p2.pos i,
                 shake := su.1, mgr := pick.2 }
        else
          some { players := st.players.set i p2.eliminate,
                 aliveIdx := st.aliveIdx,
                 grid := st.grid,
                 shake := su.1, mgr := pick.2 }
    else some st

/-- The per-combatant loop over a list of indices. -/
noncomputable def GameScene.playerLoop (inputs : ℕ → Keys) (dt : ℝ) (plat : Platform) :
    List ℕ → LoopState → Option LoopState
  | [], st => some st
  | i :: rest, st =>
    (GameScene.playerStep inputs dt plat st i).bind
      (GameScene.playerLoop inputs dt plat rest)

/-- State threaded through the collision-resolution loop of
GameScene.update (lines 226-262): the player list, the screen shake, the
set of already-checked unordered index pairs, and a counter addressing
the oracle for the random fallback angle of resolve_collision. -/
structure CollState where
  players : List Player
  shake : ScreenShake
  checked : List (ℕ × ℕ)
  rand_count : ℕ

/-- Inner body of the collision loop: for the pair (i, j), skip identical
or dead entities, deduplicate via the checked-pair set (the pair is
recorded before the overlap test, as in the source), and on overlap
resolve the collision and apply trauma plus a 40 ms hit-stop for
high-impact hits. -/
noncomputable def collideWith (angO : ℕ → ℝ) (i : ℕ) (st : CollState) (j : ℕ) : CollState :=
  match st.players.get? i, st.players.get? j with
  | some p1, some p2 =>
    if i ≠ j ∧ p1.alive = true ∧ p2.alive = true then
      let pair := (min i j, max i j)
      if pair ∈ st.checked then st
      else
        let st1 := { st with checked := st.checked ++ [pair] }
        if check_collision p1 p2 then
          let r := resolve_collision (angO st1.rand_count) p1 p2 1
          let impact := min 1 ((vlen r.1.vel + vlen r.2.vel) / 1000)
          let shake1 := st1.shake.add_trauma (0.3 * impact)
          let shake2 := if 0.6 < impact then shake1.setHitstop 40 else shake1
          { st1 with players := (st1.players.set i r.1).set j r.2,
                     shake := shake2,
                     rand_count := st1.rand_count + 1 }
        else st1
    else st
  | _, _ => st

/-- Outer body of the collision loop: query the grid around the current
position of combatant i and fold the inner body over the neighbors. -/
noncomputable def collideOuter (angO : ℕ → ℝ) (grid : SpatialGrid)
    (st : CollState) (i : ℕ) : CollState :=
  match st.players.get? i with
  | none => st
  | some p1 => (grid.get_nearby p1.pos).foldl (collideWith angO i) st

/-- The collision-resolution phase over the collected alive indices. -/
noncomputable def collisionPhase (angO : ℕ → ℝ) (aliveIdx : List ℕ) (grid : SpatialGrid)
    (players : List Player) (shake : ScreenShake) : CollState :=
  aliveIdx.foldl (collideOuter angO grid)
    { players := players, shake := shake, checked := [], rand_count := 0 }

/-- GameScene.update.  Oracles: inputs is the external keyboard state per
combatant index, spawnO the random draws of a potential power-up spawn,
angO the random fallback angles of resolve_collision.  Decorative
subsystem updates (particles, VFX, trails, impacts, HUD, sounds, replay
recording) are omitted throughout; the sound-warning blocks are kept
insofar as they mutate scene state (shrink_warned, last_shrink_warning). -/
noncomputable def GameScene.update (inputs : ℕ → Keys) (spawnO : ℝ × ℝ × PowerUpType)
    (angO : ℕ → ℝ) (dt : ℝ) (s : GameScene) : Option GameScene :=
  if s.game_started = false then some (s.countdownStep dt)
  else if s.game_over = true then
    some { s with screen_shake := (s.screen_shake.update dt).1 }
  else
    let rt := s.round_time + dt
    let warned := if SHRINK_START_TIME - 3000 < rt ∧ s.shrink_warned = false then true
                  else s.shrink_warned
    let lsw := if SHRINK_START_TIME < rt ∧ 5000 < rt - s.last_shrink_warning then rt
               else s.last_shrink_warning
    let plat := if SHRINK_START_TIME < rt then s.platform.update dt else s.platform
    let mgr := s.powerup_manager.update dt spawnO plat
    let st0 : LoopState :=
      { players := s.players, aliveIdx := [], grid := emptyGrid,
        shake := s.screen_shake, mgr := mgr }
    (GameScene.playerLoop inputs dt plat (List.range s.players.length) st0).bind fun st =>
      let c := collisionPhase angO st.aliveIdx st.grid st.players st.shake
      let s2 := { s with players := c.players, platform := plat,
                         powerup_manager := st.mgr, screen_shake := c.shake,
                         round_time := rt, shrink_warned := warned,
                         last_shrink_warning := lsw }
      if st.aliveIdx.length ≤ 1 then s2.end_round st.aliveIdx.head?
      else some s2

/-- A minimal started scene with no combatants, used to exercise a full
frame of GameScene.update concretely. -/
noncomputable def emptyScene : GameScene :=
  { players := [], platform := Platform.init,
    powerup_manager := PowerUpManager.init,
    screen_shake := { trauma := 0, trauma_decay := 1.5, time := 0,
                      hitstop_duration := 0, hitstop_elapsed := 0 },
    round_time := 0, game_over := false, winner := none, scores := [0, 0, 0, 0],
    countdown := 0, countdown_time := 0, game_started := true,
    shrink_warned := true, last_shrink_warning := 0 }

/-- The scene produced by one 16 ms frame of GameScene.update on
emptyScene: the empty round ends immediately in a draw. -/
noncomputable def finalScene : GameScene :=
  { players := [], platform := Platform.init,
    powerup_manager := { powerups := [], spawn_timer := 16, spawn_interval := 8000 },
    screen_shake := { trauma := 0, trauma_decay := 1.5, time := 0,
                      hitstop_duration := 0, hitstop_elapsed := 0 },
    round_time := 16, game_over := true, winner := none, scores := [0, 0, 0, 0],
    countdown := 0, countdown_time := 0, game_started := true,
    shrink_warned := true, last_shrink_warning := 0 }

/-- A started scene with no combatants, an active hit-stop window and the
shrink phase underway, used to exercise the platform update of a
hit-stop frame concretely. -/
noncomputable def cxScene : GameScene :=
  { players := [], platform := Platform.init,
    powerup_manager := PowerUpManager.init,
    screen_shake := { trauma := 0, trauma_decay := 1.5, time := 0,
                      hitstop_duration := 150, hitstop_elapsed := 0 },
    round_time := 20000, game_over := false, winner := none, scores := [0, 0, 0, 0],
    countdown := 0, countdown_time := 0, game_started := true,
    shrink_warned := true, last_shrink_warning := 20000 }

/-- A started scene with one stationary combatant at the screen center,
an active hit-stop window and the shrink phase underway. -/
noncomputable def hsScene : GameScene :=
  { players := [Player.init 640 360 0], platform := Platform.init,
    powerup_manager := PowerUpManager.init,
    screen_shake := { trauma := 0, trauma_decay := 1.5, time := 0,
                      hitstop_duration := 150, hitstop_elapsed := 0 },
    round_time := 20000, game_over := false, winner := none, scores := [0, 0, 0, 0],
    countdown := 0, countdown_time := 0, game_started := true,
    shrink_warned := true, last_shrink_warning := 20000 }

/-! ## Helper lemmas about the combatant state machine -/

theorem updateCooldown_alive (dt : ℝ) (p : Player) :
    (p.updateCooldown dt).alive = p.alive := by
  simp only [Player.updateCooldown]; split_ifs <;> rfl

theorem updateCooldown_player_id (dt : ℝ) (p : Player) :
    (p.updateCooldown dt).player_id = p.player_id := by
  simp only [Player.updateCooldown]; split_ifs <;> rfl

theorem updateCooldown_max (dt : ℝ) (p : Player) :
    (p.updateCooldown dt).max_dash_charges = p.max_dash_charges := by
  simp only [Player.updateCooldown]; split_ifs <;> rfl

theorem updateCooldown_is_dashing (dt : ℝ) (p : Player) :
    (p.updateCooldown dt).is_dashing = p.is_dashing := by
  simp only [Player.updateCooldown]; split_ifs <;> rfl

theorem updateCooldown_charges_cases (dt : ℝ) (p : Player) :
    (p.updateCooldown dt).dash_charges = p.dash_charges
    ∨ ((p.updateCooldown dt).dash_charges = p.dash_charges + 1
        ∧ p.dash_charges < p.max_dash_charges) := by
  simp only [Player.updateCooldown]
  split_ifs with h1 h2
  · exact Or.inr ⟨rfl, h2.2⟩
  · exact Or.inl rfl
  · exact Or.inl rfl

theorem updateBuffer_alive (dt : ℝ) (p : Player) :
    (p.updateBuffer dt).alive = p.alive := by
  simp only [Player.updateBuffer]; split_ifs <;> rfl

theorem updateBuffer_player_id (dt : ℝ) (p : Player) :
    (p.updateBuffer dt).player_id = p.player_id := by
  simp only [Player.updateBuffer]; split_ifs <;> rfl

theorem updateBuffer_max (dt : ℝ) (p : Player) :
    (p.updateBuffer dt).max_dash_charges = p.max_dash_charges := by
  simp only [Player.updateBuffer]; split_ifs <;> rfl

theorem updateBuffer_charges (dt : ℝ) (p : Player) :
    (p.updateBuffer dt).dash_charges = p.dash_charges := by
  simp only [Player.updateBuffer]; split_ifs <;> rfl

theorem updateBuffer_cooldown (dt : ℝ) (p : Player) :
    (p.updateBuffer dt).dash_cooldown = p.dash_cooldown := by
  simp only [Player.updateBuffer]; split_ifs <;> rfl

theorem updateBuffer_is_dashing (dt : ℝ) (p : Player) :
    (p.updateBuffer dt).is_dashing = p.is_dashing := by
  simp only [Player.updateBuffer]; split_ifs <;> rfl

theorem physicsPhase_alive (dt : ℝ) (p : Player) :
    (p.physicsPhase dt).alive = p.alive := rfl

theorem physicsPhase_player_id (dt : ℝ) (p : Player) :
    (p.physicsPhase dt).player_id = p.player_id := rfl

theorem physicsPhase_max (dt : ℝ) (p : Player) :
    (p.physicsPhase dt).max_dash_charges = p.max_dash_charges := rfl

theorem physicsPhase_charges (dt : ℝ) (p : Player) :
    (p.physicsPhase dt).dash_charges = p.dash_charges := rfl

theorem physicsPhase_cooldown (dt : ℝ) (p : Player) :
    (p.physicsPhase dt).dash_cooldown = p.dash_cooldown := rfl

theorem start_dash_fields {p q : Player} {dx dy : ℝ}
    (h : p.start_dash dx dy = some q) :
    q.alive = p.alive ∧ q.player_id = p.player_id
    ∧ q.max_dash_charges = p.max_dash_charges
    ∧ q.pos = p.pos ∧ q.vel = p.vel ∧ q.buffered_dash = p.buffered_dash := by
  simp only [Player.start_dash] at h
  split_ifs at h with h1 h2 h3
  all_goals cases h
  all_goals exact ⟨rfl, rfl, rfl, rfl, rfl, rfl⟩

theorem start_dash_plain_fields {p q : Player} {dx dy : ℝ}
    (h : p.start_dash dx dy = some q) :
    q.alive = p.alive ∧ q.player_id = p.player_id
    ∧ q.max_dash_charges = p.max_dash_charges := by
  rcases start_dash_fields h with ⟨h1, h2, h3, _⟩
  exact ⟨h1, h2, h3⟩

theorem start_dash_charges_cases {p q : Player} {dx dy : ℝ}
    (h : p.start_dash dx dy = some q) :
    (q.dash_charges = p.dash_charges ∧ p.dash_charges ≤ 0)
    ∨ (q.dash_charges = p.dash_charges - 1 ∧ 0 < p.dash_charges) := by
  simp only [Player.start_dash] at h
  split_ifs at h with h1 h2 h3
  all_goals cases h
  all_goals first
    | exact Or.inl ⟨rfl, h1⟩
    | exact Or.inr ⟨rfl, lt_of_not_le h1⟩

theorem start_dash_isSome {p : Player} {dx dy : ℝ} (h : dx ≠ 0 ∨ dy ≠ 0) :
    (p.start_dash dx dy).isSome = true := by
  simp only [Player.start_dash]
  have hpos : 0 < dx ^ 2 + dy ^ 2 := by
    rcases h with h | h
    · nlinarith [sq_nonneg dy, abs_pos.mpr h, sq_abs dx]
    · nlinarith [sq_nonneg dx, abs_pos.mpr h, sq_abs dy]
  have hsq : Real.sqrt (dx ^ 2 + dy ^ 2) ≠ 0 := ne_of_gt (Real.sqrt_pos.mpr hpos)
  split_ifs <;> rfl

theorem dashTrigger_spec {p1 q : Player} {keys : Keys} {mx my : ℝ}
    (h : p1.dashTrigger keys mx my = some q) :
    q.alive = p1.alive ∧ q.player_id = p1.player_id
    ∧ q.max_dash_charges = p1.max_dash_charges
    ∧ (q.dash_charges = p1.dash_charges
        ∨ (q.dash_charges = p1.dash_charges - 1 ∧ 0 < p1.dash_charges
            ∧ q.buffered_dash = false)) := by
  simp only [Player.dashTrigger] at h
  split_ifs at h with hk hc hm
  · rcases start_dash_fields h with ⟨ha, hb, hm', _, _, hbf⟩
    rcases start_dash_charges_cases h with ⟨hc1, _⟩ | ⟨hc1, hc2⟩
    · exact ⟨ha, hb, hm', Or.inl hc1⟩
    · exact ⟨ha, hb, hm', Or.inr ⟨hc1, hc2, hbf.trans hc.2⟩⟩
  all_goals cases h
  all_goals exact ⟨rfl, rfl, rfl, Or.inl rfl⟩

theorem dashTrigger_isSome (p1 : Player) (keys : Keys) (mx my : ℝ) :
    (p1.dashTrigger keys mx my).isSome = true := by
  simp only [Player.dashTrigger]
  split_ifs with hk hc hm
  · exact start_dash_isSome hm
  all_goals rfl

theorem bufferedFire_spec {p2 q : Player} {mx my : ℝ}
    (h : p2.bufferedFire mx my = some q) :
    q.alive = p2.alive ∧ q.player_id = p2.player_id
    ∧ q.max_dash_charges = p2.max_dash_charges
    ∧ (q.dash_charges = p2.dash_charges
        ∨ (q.dash_charges = p2.dash_charges - 1 ∧ 0 < p2.dash_charges
            ∧ p2.buffered_dash = true)) := by
  simp only [Player.bufferedFire] at h
  split_ifs at h with hb
  · rcases Option.map_eq_some'.mp h with ⟨p3, hs3, hq⟩
    rcases start_dash_fields hs3 with ⟨ha, hb', hm', _, _, _⟩
    rcases start_dash_charges_cases hs3 with ⟨hc1, hc2⟩ | ⟨hc1, hc2⟩ <;> subst hq
    · exact ⟨ha, hb', hm', Or.inl hc1⟩
    · exact ⟨ha, hb', hm', Or.inr ⟨hc1, hc2, hb.1⟩⟩
  · cases h; exact ⟨rfl, rfl, rfl, Or.inl rfl⟩

theorem bufferedFire_isSome (p2 : Player) (mx my : ℝ) :
    (p2.bufferedFire mx my).isSome = true := by
  simp only [Player.bufferedFire]
  split_ifs with hb
  · rcases Option.isSome_iff_exists.mp (start_dash_isSome hb.2) with ⟨p3, hp3⟩
    rw [hp3]
    rfl
  · rfl

theorem dashPhase_spec {p q : Player} {keys : Keys} {dt : ℝ}
    (h : p.dashPhase keys dt = some q) :
    q.alive = p.alive ∧ q.player_id = p.player_id
    ∧ q.max_dash_charges = p.max_dash_charges
    ∧ (q.dash_charges = p.dash_charges
        ∨ (q.dash_charges = p.dash_charges - 1 ∧ 0 < p.dash_charges)) := by
  simp only [Player.dashPhase] at h
  split_ifs at h with h1 h2
  · cases h; exact ⟨rfl, rfl, rfl, Or.inl rfl⟩
  · cases h; exact ⟨rfl, rfl, rfl, Or.inl rfl⟩
  all_goals
    rcases Option.bind_eq_some.mp h with ⟨p2, hs, hf⟩
    have hs' := dashTrigger_spec hs
    dsimp only at hs'
    rcases hs' with ⟨ha1, hb1, hm1, hc1⟩
    rcases bufferedFire_spec hf with ⟨ha2, hb2, hm2, hc2⟩
    refine ⟨ha2.trans ha1, hb2.trans hb1, hm2.trans hm1, ?_⟩
    rcases hc1 with hc1 | ⟨hc1, hc1', hbf1⟩ <;>
      rcases hc2 with hc2 | ⟨hc2, hc2', hbf2⟩
    · exact Or.inl (hc2.trans hc1)
    · exact Or.inr ⟨by omega, by omega⟩
    · exact Or.inr ⟨by omega, hc1'⟩
    · exact absurd (hbf1 ▸ hbf2) (by simp)

theorem bind_isSome_of {α β : Type} (o : Option α) (f : α → Option β)
    (h1 : o.isSome = true) (h2 : ∀ a, o = some a → (f a).isSome = true) :
    (o.bind f).isSome = true := by
  rcases Option.isSome_iff_exists.mp h1 with ⟨a, ha⟩
  rw [ha, Option.some_bind]
  exact h2 a ha

theorem dashPhase_isSome (keys : Keys) (dt : ℝ) (p : Player) :
    (p.dashPhase keys dt).isSome = true := by
  simp only [Player.dashPhase]
  split_ifs with h1 h2
  · rfl
  · rfl
  all_goals
    exact bind_isSome_of _ _ (dashTrigger_isSome _ _ _ _)
      (fun p2 _ => bufferedFire_isSome _ _ _)

theorem update_spec {p q : Player} {keys : Keys} {dt : ℝ}
    (h : p.update keys dt = some q) :
    q.alive = p.alive ∧ q.player_id = p.player_id
    ∧ q.max_dash_charges = p.max_dash_charges := by
  simp only [Player.update] at h
  split_ifs at h with hd
  · cases h; exact ⟨rfl, rfl, rfl⟩
  · rcases Option.map_eq_some'.mp h with ⟨r, hr, hq⟩
    rcases dashPhase_spec hr with ⟨ha, hb, hm, _⟩
    subst hq
    refine ⟨?_, ?_, ?_⟩
    · rw [physicsPhase_alive, ha, updateBuffer_alive, updateCooldown_alive]
    · rw [physicsPhase_player_id, hb, updateBuffer_player_id, updateCooldown_player_id]
    · rw [physicsPhase_max, hm, updateBuffer_max, updateCooldown_max]

theorem update_charges_invariant {p q : Player} {keys : Keys} {dt : ℝ}
    (h0 : 0 ≤ p.dash_charges) (h1 : p.dash_charges ≤ p.max_dash_charges)
    (h : p.update keys dt = some q) :
    0 ≤ q.dash_charges ∧ q.dash_charges ≤ q.max_dash_charges := by
  have hmax : q.max_dash_charges = p.max_dash_charges := (update_spec h).2.2
  simp only [Player.update] at h
  split_ifs at h with hd
  · cases h; exact ⟨h0, h1⟩
  · rcases Option.map_eq_some'.mp h with ⟨r, hr, hq⟩
    rcases dashPhase_spec hr with ⟨_, _, _, hc⟩
    have hb1 := updateBuffer_charges dt (p.updateCooldown dt)
    have hcool := updateCooldown_charges_cases dt p
    have hmax1 := updateCooldown_max dt p
    have hq' : q.dash_charges = r.dash_charges := by
      subst hq; exact physicsPhase_charges dt r
    rw [hmax]
    rcases hc with hc | ⟨hc, hc'⟩ <;> rcases hcool with hcool | ⟨hcool, hcool'⟩ <;>
      omega

theorem update_isSome (keys : Keys) (dt : ℝ) (p : Player) :
    (p.update keys dt).isSome = true := by
  simp only [Player.update]
  split_ifs with hd
  · rfl
  · rcases Option.isSome_iff_exists.mp
      (dashPhase_isSome keys dt ((p.updateCooldown dt).updateBuffer dt)) with ⟨r, hr⟩
    rw [hr]
    rfl

theorem start_dash_zero_dir {p : Player} (hc : 0 < p.dash_charges) :
    p.start_dash 0 0 = none := by
  simp only [Player.start_dash]
  rw [if_neg (not_le.mpr hc)]
  norm_num

theorem start_dash_unit {p : Player} {dx dy : ℝ} (hne : ¬(dx = 0 ∧ dy = 0)) :
    ∀ q, p.start_dash dx dy = some q → 0 < p.dash_charges →
      vlen q.dash_direction = 1 := by
  intro q h hc
  have hor : dx ≠ 0 ∨ dy ≠ 0 := by tauto
  have hpos : 0 < dx ^ 2 + dy ^ 2 := by
    rcases hor with h' | h'
    · nlinarith [sq_nonneg dy, abs_pos.mpr h', sq_abs dx]
    · nlinarith [sq_nonneg dx, abs_pos.mpr h', sq_abs dy]
  have hl : 0 < Real.sqrt (dx ^ 2 + dy ^ 2) := Real.sqrt_pos.mpr hpos
  simp only [Player.start_dash] at h
  rw [if_neg (not_le.mpr hc), if_neg (ne_of_gt hl)] at h
  have hdir : q.dash_direction
      = (dx / Real.sqrt (dx ^ 2 + dy ^ 2), dy / Real.sqrt (dx ^ 2 + dy ^ 2)) := by
    cases h; rfl
  rw [hdir]
  unfold vlen
  rw [div_pow, div_pow, div_add_div_same,
      Real.sq_sqrt (le_of_lt hpos), div_self (by positivity)]
  exact Real.sqrt_one

/-! ## Platform lemmas -/

theorem platform_update_radius {pl : Platform} {dt : ℝ} (hr : pl.min_radius ≤ pl.radius)
    (hdt : 0 ≤ dt) :
    (pl.update dt).radius = max (pl.radius - SHRINK_RATE * (dt / 1000)) pl.min_radius := by
  simp only [Platform.update]
  split_ifs with h
  · rfl
  · have heq : pl.radius = pl.min_radius := le_antisymm (not_lt.mp h) hr
    rw [heq, max_eq_right]
    have : 0 ≤ SHRINK_RATE * (dt / 1000) := by
      unfold SHRINK_RATE; positivity
    linarith

theorem platform_update_min_radius (pl : Platform) (dt : ℝ) :
    (pl.update dt).min_radius = pl.min_radius := by
  simp only [Platform.update]; split_ifs <;> rfl

theorem platform_foldl_radius : ∀ (dts : List ℝ) (pl : Platform),
    (∀ d ∈ dts, 0 ≤ d) → pl.min_radius ≤ pl.radius →
    (dts.foldl (fun q d => q.update d) pl).radius
      = max (pl.radius - SHRINK_RATE * (dts.sum / 1000)) pl.min_radius
  | [], pl, _, hr => by
    simpa using (max_eq_left hr).symm
  | d :: ds, pl, h0, hr => by
    have hd : 0 ≤ d := h0 d (List.mem_cons_self d ds)
    have hds : ∀ x ∈ ds, 0 ≤ x := fun x hx => h0 x (List.mem_cons_of_mem d hx)
    have hstep : (pl.update d).radius
        = max (pl.radius - SHRINK_RATE * (d / 1000)) pl.min_radius :=
      platform_update_radius hr hd
    have hmin : (pl.update d).min_radius = pl.min_radius :=
      platform_update_min_radius pl d
    have hr' : (pl.update d).min_radius ≤ (pl.update d).radius := by
      rw [hstep, hmin]; exact le_max_right _ _
    have ih := platform_foldl_radius ds (pl.update d) hds hr'
    rw [List.foldl_cons, ih, hstep, hmin, List.sum_cons, ← max_sub_sub_right, max_assoc]
    have h2 : 0 ≤ SHRINK_RATE * (ds.sum / 1000) := by
      have hs : 0 ≤ ds.sum := List.sum_nonneg hds
      unfold SHRINK_RATE; positivity
    rw [max_eq_right
      (by linarith : pl.min_radius - SHRINK_RATE * (ds.sum / 1000) ≤ pl.min_radius)]
    have h3 : pl.radius - SHRINK_RATE * (d / 1000) - SHRINK_RATE * (ds.sum / 1000)
        = pl.radius - SHRINK_RATE * ((d + ds.sum) / 1000) := by ring
    rw [h3]

/-- C3: for every Platform.update call with nonnegative dt the radius is
non-increasing and never drops below min_radius (a single very large
step clamps exactly at the floor), and starting from radius 300 with
minimum 100 and shrink rate 20 per second, any sequence of shrink-phase
updates totalling 10 simulated seconds leaves the radius exactly 100. -/
theorem platform_monotonicity :
    (∀ (pl : Platform) (dt : ℝ), 0 ≤ dt → (pl.update dt).radius ≤ pl.radius)
    ∧ (∀ (pl : Platform) (dt : ℝ), pl.min_radius ≤ pl.radius →
        pl.min_radius ≤ (pl.update dt).radius)
    ∧ (∀ dts : List ℝ, (∀ d ∈ dts, 0 ≤ d) → dts.sum = 10000 →
        (dts.foldl (fun q d => q.update d) Platform.init).radius = 100) := by
  refine ⟨?_, ?_, ?_⟩
  · intro pl dt hdt
    simp only [Platform.update]
    split_ifs with h
    · have hx : 0 ≤ SHRINK_RATE * (dt / 1000) := by unfold SHRINK_RATE; positivity
      exact max_le (by linarith) (le_of_lt h)
    · exact le_refl _
  · intro pl dt hr
    simp only [Platform.update]
    split_ifs with h
    · exact le_max_right _ _
    · exact hr
  · intro dts h0 hsum
    have hinit : Platform.init.min_radius ≤ Platform.init.radius := by
      norm_num [Platform.init, PLATFORM_MIN_RADIUS, PLATFORM_START_RADIUS]
    rw [platform_foldl_radius dts Platform.init h0 hinit, hsum]
    norm_num [Platform.init, PLATFORM_MIN_RADIUS, PLATFORM_START_RADIUS, SHRINK_RATE]

/-- Witness for C3 at concrete inputs: one 16 ms step from the initial
platform, and a single 10000 ms shrink step reaching the floor. -/
theorem platform_monotonicity_witness :
    ((Platform.init.update 16).radius ≤ Platform.init.radius)
    ∧ (Platform.init.min_radius ≤ (Platform.init.update 16).radius)
    ∧ ((([10000] : List ℝ).foldl (fun q d => q.update d) Platform.init).radius = 100) := by
  refine ⟨platform_monotonicity.1 Platform.init 16 (by norm_num),
          platform_monotonicity.2.1 Platform.init 16 ?_,
          platform_monotonicity.2.2 [10000] ?_ (by norm_num)⟩
  · norm_num [Platform.init, PLATFORM_MIN_RADIUS, PLATFORM_START_RADIUS]
  · intro d hd
    rw [List.mem_singleton] at hd
    rw [hd]
    norm_num

/-! ## Further combatant lemmas for the dash-charge scenario -/

theorem updateCooldown_dash_time (dt : ℝ) (p : Player) :
    (p.updateCooldown dt).dash_time = p.dash_time := by
  simp only [Player.updateCooldown]; split_ifs <;> rfl

theorem updateBuffer_dash_time (dt : ℝ) (p : Player) :
    (p.updateBuffer dt).dash_time = p.dash_time := by
  simp only [Player.updateBuffer]; split_ifs <;> rfl

theorem update_noKeys_cc {p q : Player} {dt : ℝ} (halive : p.alive = true)
    (h : p.update noKeys dt = some q) :
    q.dash_charges = (p.updateCooldown dt).dash_charges
    ∧ q.dash_cooldown = (p.updateCooldown dt).dash_cooldown := by
  simp only [Player.update, halive] at h
  norm_num at h
  rcases h with ⟨r, hr, hq⟩
  subst hq
  rw [physicsPhase_charges, physicsPhase_cooldown]
  have hbc := updateBuffer_charges dt (p.updateCooldown dt)
  have hbcd := updateBuffer_cooldown dt (p.updateCooldown dt)
  simp only [Player.dashPhase] at hr
  split_ifs at hr with h1 h2 h3
  · cases hr; exact ⟨hbc, hbcd⟩
  · cases hr; exact ⟨hbc, hbcd⟩
  · exact absurd h3 (by norm_num [moveOf, noKeys])
  · simp only [Player.dashTrigger, Player.bufferedFire, moveOf, noKeys] at hr
    norm_num at hr
    cases hr
    exact ⟨hbc, hbcd⟩

theorem start_dash_consume {p q : Player} {dx dy : ℝ} (hc : 0 < p.dash_charges)
    (h : p.start_dash dx dy = some q) :
    q.dash_charges = p.dash_charges - 1
    ∧ q.dash_cooldown
        = (if q.dash_charges = 0 then PLAYER_DASH_COOLDOWN else p.dash_cooldown) := by
  simp only [Player.start_dash] at h
  rw [if_neg (not_le.mpr hc)] at h
  split_ifs at h with h2 h3
  all_goals cases h
  all_goals refine ⟨rfl, ?_⟩
  all_goals split_ifs with hcond <;> simp_all

theorem updateCooldown_regen {dt : ℝ} {p : Player} (h1 : 0 < p.dash_cooldown)
    (h2 : p.dash_cooldown - dt ≤ 0) (h3 : p.dash_charges < p.max_dash_charges) :
    (p.updateCooldown dt).dash_charges = p.dash_charges + 1
    ∧ (p.updateCooldown dt).dash_cooldown = PLAYER_DASH_COOLDOWN := by
  simp only [Player.updateCooldown]
  rw [if_pos h1, if_pos ⟨h2, h3⟩]
  exact ⟨rfl, rfl⟩

/-- C2: dash charges remain in the interval from 0 to max_dash_charges
under every update; start_dash with zero charges is a no-op; a
successful start_dash consumes exactly one charge and sets the cooldown
timer exactly when charges reach zero; an elapsed cooldown with charges
below the maximum regenerates exactly one charge (never more than one
per update) and restarts the cooldown; and in the concrete scenario a
combatant with one charge who dashes and advances 999 ms still has zero
charges with the cooldown pending, and after 2 ms more has one charge. -/
theorem dash_charge_conservation :
    (∀ (keys : Keys) (dt : ℝ) (p q : Player),
        0 ≤ p.dash_charges → p.dash_charges ≤ p.max_dash_charges →
        p.update keys dt = some q →
        0 ≤ q.dash_charges ∧ q.dash_charges ≤ q.max_dash_charges)
    ∧ (∀ (p : Player) (dx dy : ℝ), p.dash_charges = 0 → p.start_dash dx dy = some p)
    ∧ (∀ (p q : Player) (dx dy : ℝ), 0 < p.dash_charges →
        p.start_dash dx dy = some q →
        q.dash_charges = p.dash_charges - 1
        ∧ q.dash_cooldown
            = (if q.dash_charges = 0 then PLAYER_DASH_COOLDOWN else p.dash_cooldown))
    ∧ (∀ (dt : ℝ) (p : Player), 0 < p.dash_cooldown → p.dash_cooldown - dt ≤ 0 →
        p.dash_charges < p.max_dash_charges →
        (p.updateCooldown dt).dash_charges = p.dash_charges + 1
        ∧ (p.updateCooldown dt).dash_cooldown = PLAYER_DASH_COOLDOWN)
    ∧ (∀ (dt : ℝ) (p : Player), (p.updateCooldown dt).dash_charges ≤ p.dash_charges + 1)
    ∧ (∀ (p p1 p2 p3 : Player) (dx dy : ℝ), p.alive = true →
        p.dash_charges = 1 → p.max_dash_charges = 2 →
        p.start_dash dx dy = some p1 →
        p1.update noKeys 999 = some p2 → p2.update noKeys 2 = some p3 →
        p2.dash_charges = 0 ∧ 0 < p2.dash_cooldown ∧ p3.dash_charges = 1) := by
  refine ⟨?_, ?_, ?_, ?_, ?_, ?_⟩
  · intro keys dt p q h0 h1 h
    exact update_charges_invariant h0 h1 h
  · intro p dx dy h0
    simp only [Player.start_dash]
    rw [if_pos (by omega)]
  · intro p q dx dy hc h
    exact start_dash_consume hc h
  · intro dt p h1 h2 h3
    exact updateCooldown_regen h1 h2 h3
  · intro dt p
    rcases updateCooldown_charges_cases dt p with h | ⟨h, _⟩ <;> omega
  · intro p p1 p2 p3 dx dy halive hc hmax hsd h2 h3
    have hc0 : 0 < p.dash_charges := by omega
    rcases start_dash_fields hsd with ⟨hal1, _, hmax1, _⟩
    rcases start_dash_consume hc0 hsd with ⟨hc1, hcd1⟩
    have hc1' : p1.dash_charges = 0 := by omega
    have hcd1' : p1.dash_cooldown = PLAYER_DASH_COOLDOWN := by
      rw [hcd1, if_pos hc1']
    -- second step: 999 ms, cooldown ticks from 1000 down to 1
    have hal1' : p1.alive = true := by rw [hal1, halive]
    rcases update_noKeys_cc hal1' h2 with ⟨hq2c, hq2cd⟩
    have e1 : (p1.updateCooldown 999).dash_charges = p1.dash_charges
        ∧ (p1.updateCooldown 999).dash_cooldown = p1.dash_cooldown - 999 := by
      simp only [Player.updateCooldown]
      rw [hcd1']
      rw [if_pos (by norm_num [PLAYER_DASH_COOLDOWN])]
      rw [if_neg (by norm_num [PLAYER_DASH_COOLDOWN])]
      exact ⟨rfl, rfl⟩
    have hp2c : p2.dash_charges = 0 := by rw [hq2c, e1.1, hc1']
    have hp2cd : p2.dash_cooldown = PLAYER_DASH_COOLDOWN - 999 := by
      rw [hq2cd, e1.2, hcd1']
    refine ⟨hp2c, by rw [hp2cd]; norm_num [PLAYER_DASH_COOLDOWN], ?_⟩
    -- third step: 2 ms, cooldown elapses and one charge regenerates
    rcases update_spec h2 with ⟨hal2, _, hmax2⟩
    have hal2' : p2.alive = true := by rw [hal2, hal1']
    rcases update_noKeys_cc hal2' h3 with ⟨hq3c, _⟩
    have e2 := @updateCooldown_regen 2 p2
      (by rw [hp2cd]; norm_num [PLAYER_DASH_COOLDOWN])
      (by rw [hp2cd]; norm_num [PLAYER_DASH_COOLDOWN])
      (by rw [hp2c, hmax2, hmax1, hmax]; norm_num)
    rw [hq3c, e2.1, hp2c]
    norm_num

theorem option_eq_some_getD {α : Type} {o : Option α} (d : α) (h : o.isSome = true) :
    o = some (o.getD d) := by
  rcases Option.isSome_iff_exists.mp h with ⟨a, ha⟩
  rw [ha]
  rfl

/-- Witness for C2: the concrete dash-and-regenerate run from a fresh
combatant, plus concrete instances of the bound, no-op, consumption and
regeneration properties. -/
theorem dash_charge_conservation_witness :
    (0 ≤ (((Player.init 100 100 0).update noKeys 16).getD
            (Player.init 100 100 0)).dash_charges
      ∧ (((Player.init 100 100 0).update noKeys 16).getD
            (Player.init 100 100 0)).dash_charges
          ≤ (((Player.init 100 100 0).update noKeys 16).getD
                (Player.init 100 100 0)).max_dash_charges)
    ∧ (({ Player.init 100 100 0 with dash_charges := 0 } : Player).start_dash 1 0
        = some { Player.init 100 100 0 with dash_charges := 0 })
    ∧ ((((Player.init 100 100 0).start_dash 1 0).getD
          (Player.init 100 100 0)).dash_charges = 1 - 1)
    ∧ ((({ Player.init 100 100 0 with dash_cooldown := 500, dash_charges := 0 }
          : Player).updateCooldown 600).dash_charges = 0 + 1)
    ∧ ((({ Player.init 100 100 0 with dash_cooldown := 500, dash_charges := 0 }
          : Player).updateCooldown 600).dash_charges ≤ 0 + 1)
    ∧ ((((Player.init 100 100 0).start_dash 1 0).getD (Player.init 100 100 0)
          |>.update noKeys 999).getD
            (((Player.init 100 100 0).start_dash 1 0).getD
              (Player.init 100 100 0))).dash_charges = 0 := by
  have hsd : (Player.init 100 100 0).start_dash 1 0
      = some (((Player.init 100 100 0).start_dash 1 0).getD (Player.init 100 100 0)) :=
    option_eq_some_getD _ (start_dash_isSome (Or.inl one_ne_zero))
  have h999 : (((Player.init 100 100 0).start_dash 1 0).getD
        (Player.init 100 100 0)).update noKeys 999
      = some ((((Player.init 100 100 0).start_dash 1 0).getD (Player.init 100 100 0)
          |>.update noKeys 999).getD
            (((Player.init 100 100 0).start_dash 1 0).getD (Player.init 100 100 0))) :=
    option_eq_some_getD _ (update_isSome _ _ _)
  have h2ms : ((((Player.init 100 100 0).start_dash 1 0).getD (Player.init 100 100 0)
        |>.update noKeys 999).getD
          (((Player.init 100 100 0).start_dash 1 0).getD
            (Player.init 100 100 0))).update noKeys 2
      = some (((((Player.init 100 100 0).start_dash 1 0).getD (Player.init 100 100 0)
          |>.update noKeys 999).getD
            (((Player.init 100 100 0).start_dash 1 0).getD (Player.init 100 100 0))
          |>.update noKeys 2).getD
            ((((Player.init 100 100 0).start_dash 1 0).getD (Player.init 100 100 0)
              |>.update noKeys 999).getD
                (((Player.init 100 100 0).start_dash 1 0).getD
                  (Player.init 100 100 0)))) :=
    option_eq_some_getD _ (update_isSome _ _ _)
  have hscen := dash_charge_conservation.2.2.2.2.2 _ _ _ _ 1 0 rfl rfl rfl hsd h999 h2ms
  refine ⟨?_, ?_, ?_, ?_, ?_, hscen.1⟩
  · exact dash_charge_conservation.1 noKeys 16 _ _ (by decide) (by decide)
      (option_eq_some_getD _ (update_isSome _ _ _))
  · exact dash_charge_conservation.2.1 _ 1 0 rfl
  · exact (dash_charge_conservation.2.2.1 _ _ 1 0 (by decide) hsd).1
  · exact (dash_charge_conservation.2.2.2.1 600 _ (by norm_num)
      (by norm_num) (by decide)).1
  · exact dash_charge_conservation.2.2.2.2.1 600 _

/-- C9: start_dash normalizes the requested direction, so calling it
with the zero direction while a charge is available raises (the zero
charge case returns before normalizing, so it cannot raise); every
successful dash stores a unit-length direction; and the update path can
never raise, because its own call sites pass a nonzero movement intent. -/
theorem start_dash_zero_direction :
    (∀ p : Player, 0 < p.dash_charges → p.start_dash 0 0 = none)
    ∧ (∀ (p : Player) (dx dy : ℝ), ¬(dx = 0 ∧ dy = 0) →
        (p.start_dash dx dy).isSome = true)
    ∧ (∀ (p q : Player) (dx dy : ℝ), ¬(dx = 0 ∧ dy = 0) → 0 < p.dash_charges →
        p.start_dash dx dy = some q → vlen q.dash_direction = 1)
    ∧ (∀ (keys : Keys) (dt : ℝ) (p : Player), (p.update keys dt).isSome = true) := by
  refine ⟨?_, ?_, ?_, ?_⟩
  · intro p hc
    exact start_dash_zero_dir hc
  · intro p dx dy hne
    exact start_dash_isSome (not_and_or.mp hne)
  · intro p q dx dy hne hc h
    exact start_dash_unit hne q h hc
  · intro keys dt p
    exact update_isSome keys dt p

/-- Witness for C9: a fresh combatant with one charge raises on a zero
direction, succeeds on direction (3, 4) with a unit direction vector,
and a no-input update cannot raise. -/
theorem start_dash_zero_direction_witness :
    ((Player.init 100 100 0).start_dash 0 0 = none)
    ∧ (((Player.init 100 100 0).start_dash 3 4).isSome = true)
    ∧ (vlen (((Player.init 100 100 0).start_dash 3 4).getD
          (Player.init 100 100 0)).dash_direction = 1)
    ∧ (((Player.init 100 100 0).update noKeys 16).isSome = true) := by
  refine ⟨start_dash_zero_direction.1 _ (by decide),
          start_dash_zero_direction.2.1 _ 3 4 (by norm_num),
          start_dash_zero_direction.2.2.1 _ _ 3 4 (by norm_num) (by decide)
            (option_eq_some_getD _
              (start_dash_zero_direction.2.1 _ 3 4 (by norm_num))),
          start_dash_zero_direction.2.2.2 noKeys 16 _⟩

/-! ## Power-up scheduler and pickup lemmas -/

theorem powerup_filter_length (dt : ℝ) (l : List PowerUp) :
    ((((l.map (PowerUp.update dt)).filter (·.2)).map (·.1)).length) ≤ l.length := by
  rw [List.length_map]
  calc ((l.map (PowerUp.update dt)).filter (·.2)).length
      ≤ (l.map (PowerUp.update dt)).length := List.length_filter_le _ _
    _ = l.length := List.length_map _ _

/-- C10: PowerUpManager.update resets the spawn accumulator to zero
whenever it reaches the 8000 ms interval, whether or not a spawn occurs
(a blocked attempt therefore waits a full further interval); below the
interval the accumulator just grows and nothing spawns; at most one
power-up is created per update; and the scheduler never pushes the count
of simultaneously present power-ups above 3. -/
theorem spawn_scheduler (m : PowerUpManager) (dt : ℝ) (oracle : ℝ × ℝ × PowerUpType)
    (plat : Platform) (hI : m.spawn_interval = 8000) :
    (8000 ≤ m.spawn_timer + dt → (m.update dt oracle plat).spawn_timer = 0)
    ∧ (m.spawn_timer + dt < 8000 →
        (m.update dt oracle plat).spawn_timer = m.spawn_timer + dt
        ∧ (m.update dt oracle plat).powerups.length ≤ m.powerups.length)
    ∧ ((m.update dt oracle plat).powerups.length ≤ m.powerups.length + 1)
    ∧ (m.powerups.length ≤ 3 → (m.update dt oracle plat).powerups.length ≤ 3)
    ∧ (3 ≤ m.powerups.length →
        (m.update dt oracle plat).powerups.length ≤ m.powerups.length) := by
  simp only [PowerUpManager.update, PowerUpManager.spawn_random, hI]
  split_ifs with h1 h2
  all_goals dsimp only
  · -- interval reached, fewer than 3 present: spawn appended
    refine ⟨fun _ => rfl, fun hlt => absurd h1 (not_le.mpr hlt), ?_, ?_, ?_⟩
    · refine le_trans (powerup_filter_length _ _) ?_
      simp
    · intro _
      refine le_trans (powerup_filter_length _ _) ?_
      simp only [List.length_append, List.length_singleton]
      omega
    · intro h3
      exact absurd h2 (not_lt.mpr h3)
  · -- interval reached, cap hit: no spawn
    refine ⟨fun _ => rfl, fun hlt => absurd h1 (not_le.mpr hlt), ?_, ?_, ?_⟩
    · exact le_trans (powerup_filter_length _ _) (by omega)
    · intro h3
      exact le_trans (powerup_filter_length _ _) h3
    · intro _
      exact powerup_filter_length _ _
  · -- interval not reached
    refine ⟨fun hge => absurd hge h1, fun _ => ⟨rfl, powerup_filter_length _ _⟩, ?_, ?_, ?_⟩
    · exact le_trans (powerup_filter_length _ _) (by omega)
    · intro h3
      exact le_trans (powerup_filter_length _ _) h3
    · intro _
      exact powerup_filter_length _ _

/-- Witness for C10 at a concrete manager: timer at 7990 ms advanced by
20 ms resets to zero, and the count stays within the cap. -/
theorem spawn_scheduler_witness :
    (({ PowerUpManager.init with spawn_timer := 7990 }
        : PowerUpManager).update 20 (0, 0, PowerUpType.shield)
          Platform.init).spawn_timer = 0
    ∧ (({ PowerUpManager.init with spawn_timer := 7990 }
        : PowerUpManager).update 20 (0, 0, PowerUpType.shield)
          Platform.init).powerups.length ≤ 3 := by
  have h := spawn_scheduler { PowerUpManager.init with spawn_timer := 7990 } 20
    (0, 0, PowerUpType.shield) Platform.init rfl
  exact ⟨h.1 (by norm_num [PowerUpManager.init]),
         h.2.2.2.1 (by norm_num [PowerUpManager.init])⟩

theorem checkPickupsList_none (pl : Player) :
    ∀ l : List PowerUp, (∀ pu ∈ l, ¬ pu.check_pickup pl) →
      checkPickupsList pl l = (none, l)
  | [], _ => rfl
  | pu :: rest, h => by
    simp only [checkPickupsList]
    rw [if_neg (h pu (List.mem_cons_self pu rest))]
    rw [checkPickupsList_none pl rest (fun x hx => h x (List.mem_cons_of_mem pu hx))]

theorem checkPickupsList_first (pl : Player) :
    ∀ (l : List PowerUp) (i : ℕ) (hi : i < l.length),
      (l.get ⟨i, hi⟩).check_pickup pl →
      (∀ j (hj : j < i), ¬ (l.get ⟨j, lt_trans hj hi⟩).check_pickup pl) →
      checkPickupsList pl l = (some (l.get ⟨i, hi⟩).type, l.eraseIdx i)
  | [], i, hi, _, _ => absurd hi (by simp)
  | pu :: rest, 0, hi, hp, _ => by
    simp only [checkPickupsList, List.get] at hp ⊢
    rw [if_pos hp]
    rfl
  | pu :: rest, i + 1, hi, hp, hprev => by
    simp only [checkPickupsList, List.get] at hp ⊢
    have h0 : ¬ pu.check_pickup pl := hprev 0 (Nat.succ_pos i)
    rw [if_neg h0]
    have hi' : i < rest.length := Nat.lt_of_succ_lt_succ hi
    have hrec := checkPickupsList_first pl rest i hi' hp
      (fun j hj => hprev (j + 1) (Nat.succ_lt_succ hj))
    rw [hrec]
    rfl

/-- C8: a pickup check claims at most one power-up: when no active
instance overlaps the combatant it returns none and leaves the list
unchanged, and otherwise it returns the type of the first overlapping
instance in insertion order, removes exactly that instance, and leaves
every other instance in place. -/
theorem check_pickups_first_match (m : PowerUpManager) (pl : Player) :
    ((∀ pu ∈ m.powerups, ¬ pu.check_pickup pl) →
      (m.check_pickups pl).1 = none
      ∧ (m.check_pickups pl).2.powerups = m.powerups)
    ∧ (∀ i (hi : i < m.powerups.length),
        (m.powerups.get ⟨i, hi⟩).check_pickup pl →
        (∀ j (hj : j < i), ¬ (m.powerups.get ⟨j, lt_trans hj hi⟩).check_pickup pl) →
        (m.check_pickups pl).1 = some (m.powerups.get ⟨i, hi⟩).type
        ∧ (m.check_pickups pl).2.powerups = m.powerups.eraseIdx i) := by
  constructor
  · intro h
    simp only [PowerUpManager.check_pickups]
    rw [checkPickupsList_none pl m.powerups h]
    exact ⟨rfl, rfl⟩
  · intro i hi hp hprev
    simp only [PowerUpManager.check_pickups]
    rw [checkPickupsList_first pl m.powerups i hi hp hprev]
    exact ⟨rfl, rfl⟩

/-- Witness for C8: with an inactive first instance and an overlapping
active second instance, the check returns the second instance's type and
removes exactly it. -/
theorem check_pickups_first_match_witness :
    (({ PowerUpManager.init with
          powerups := [{ mkPowerUp 0 0 PowerUpType.shield with active := false },
                       mkPowerUp 100 100 PowerUpType.speed_boost] }
        : PowerUpManager).check_pickups (Player.init 100 100 0)).1
      = some PowerUpType.speed_boost
    ∧ (({ PowerUpManager.init with
            powerups := [{ mkPowerUp 0 0 PowerUpType.shield with active := false },
                         mkPowerUp 100 100 PowerUpType.speed_boost] }
          : PowerUpManager).check_pickups (Player.init 100 100 0)).2.powerups
        = [{ mkPowerUp 0 0 PowerUpType.shield with active := false }] := by
  have h := (check_pickups_first_match
    { PowerUpManager.init with
        powerups := [{ mkPowerUp 0 0 PowerUpType.shield with active := false },
                     mkPowerUp 100 100 PowerUpType.speed_boost] }
    (Player.init 100 100 0)).2 1 (by norm_num) ?_ ?_
  · exact h
  · constructor
    · rfl
    · show vlen (vsub (100, 100) (100, 100)) < 15 + 20
      simp only [vsub, vlen, sub_self]
      norm_num
  · intro j hj
    interval_cases j
    intro hcontra
    exact absurd hcontra.1 (by simp [mkPowerUp])

/-- C6: AI state assessment follows a strict precedence: Survival
exactly when the fraction of remaining platform radius to the edge is
below the 0.3 danger threshold, regardless of nearby opponents;
otherwise Defensive for at least 2 living combatants within 150 units,
Aggressive for exactly 1, Opportunistic for none.  In particular an
agent whose distance to the edge is 25 percent of the platform radius
always selects Survival. -/
theorem assess_state_precedence (a : AIPlayer) (others : List Player) (plat : Platform)
    (hth : a.danger_threshold = 0.3) :
    (a.assess_state others plat = AIState.survival
      ↔ (plat.radius - vlen (vsub a.pos plat.center)) / plat.radius < 0.3)
    ∧ (¬ (plat.radius - vlen (vsub a.pos plat.center)) / plat.radius < 0.3 →
        ((a.assess_state others plat = AIState.defensive
           ↔ 2 ≤ (others.filter fun p =>
               p.alive && decide (vlen (vsub p.pos a.pos) < 150)).length)
         ∧ (a.assess_state others plat = AIState.aggressive
             ↔ (others.filter fun p =>
                 p.alive && decide (vlen (vsub p.pos a.pos) < 150)).length = 1)
         ∧ (a.assess_state others plat = AIState.opportunistic
             ↔ (others.filter fun p =>
                 p.alive && decide (vlen (vsub p.pos a.pos) < 150)).length = 0)))
    ∧ (0 < plat.radius →
        plat.radius - vlen (vsub a.pos plat.center) = 0.25 * plat.radius →
        a.assess_state others plat = AIState.survival) := by
  have hr25 : 0 < plat.radius →
      plat.radius - vlen (vsub a.pos plat.center) = 0.25 * plat.radius →
      (plat.radius - vlen (vsub a.pos plat.center)) / plat.radius < 0.3 := by
    intro hR he
    rw [he, mul_div_assoc, div_self (ne_of_gt hR)]
    norm_num
  simp only [AIPlayer.assess_state, hth]
  split_ifs with h1 h2 h3
  · refine ⟨by simp [h1], fun hc => absurd h1 hc, fun _ _ => rfl⟩
  · refine ⟨by simp [h1], fun _ => ⟨by simp [h2],
      ⟨fun hc => absurd hc (by decide), fun ht => absurd ht (by omega)⟩,
      ⟨fun hc => absurd hc (by decide), fun ht => absurd ht (by omega)⟩⟩,
      fun hR he => absurd (hr25 hR he) h1⟩
  · refine ⟨by simp [h1], fun _ => ⟨⟨fun hc => absurd hc (by decide),
        fun hge => absurd hge h2⟩, by simp [h3],
      ⟨fun hc => absurd hc (by decide), fun ht => absurd ht (by omega)⟩⟩,
      fun hR he => absurd (hr25 hR he) h1⟩
  · refine ⟨by simp [h1], fun _ => ⟨⟨fun hc => absurd hc (by decide),
        fun hge => absurd hge h2⟩,
      ⟨fun hc => absurd hc (by decide), fun ht => absurd ht h3⟩,
      ⟨fun _ => by omega, fun _ => rfl⟩⟩,
      fun hR he => absurd (hr25 hR he) h1⟩

/-- Witness for C6: an agent 150 units from the center of a platform of
radius 200 is 50 units (25 percent of the radius) from the edge and
selects Survival even with a living opponent right next to it. -/
theorem assess_state_precedence_witness :
    (AIPlayer.init 150 0 0).assess_state [Player.init 150 10 1]
      { center := (0, 0), radius := 200, min_radius := 100 }
      = AIState.survival := by
  have hs : Real.sqrt 22500 = 150 := by
    rw [show (22500:ℝ) = 150 ^ 2 by norm_num, Real.sqrt_sq (by norm_num)]
  refine (assess_state_precedence (AIPlayer.init 150 0 0) [Player.init 150 10 1]
    { center := (0, 0), radius := 200, min_radius := 100 } rfl).2.2
    (by norm_num) ?_
  show (200 : ℝ) - vlen (vsub (150, 0) (0, 0)) = 0.25 * 200
  simp only [vsub, vlen]
  norm_num [hs]

/-! ## Collision resolution lemmas -/

set_option maxHeartbeats 2000000 in
/-- C4: resolve_collision is symmetric under swapping its two entity
arguments: for overlapping entities with non-coincident centers (so the
random fallback normal is not taken), the first output of resolving
(e1, e2) equals the second output of resolving (e2, e1) and vice versa,
covering the positional correction, the restitution impulse, the
gameplay push force and the tangential force. -/
theorem resolve_collision_symmetric (ang1 ang2 : ℝ) (e1 e2 : Player) (m : ℝ)
    (hsep : 0.0001 ≤ Real.sqrt ((e2.pos.1 - e1.pos.1) * (e2.pos.1 - e1.pos.1)
      + (e2.pos.2 - e1.pos.2) * (e2.pos.2 - e1.pos.2)))
    (hov : check_collision e1 e2) :
    (resolve_collision ang1 e1 e2 m).1 = (resolve_collision ang2 e2 e1 m).2
    ∧ (resolve_collision ang1 e1 e2 m).2 = (resolve_collision ang2 e2 e1 m).1 := by
  obtain ⟨⟨p1x, p1y⟩, ⟨v1x, v1y⟩, id1, r1, al1, da1, t1, cd1, dir1, ch1, mx1, k1,
    de1, bf1, bt1⟩ := e1
  obtain ⟨⟨p2x, p2y⟩, ⟨v2x, v2y⟩, id2, r2, al2, da2, t2, cd2, dir2, ch2, mx2, k2,
    de2, bf2, bt2⟩ := e2
  simp only at hsep
  have hd : Real.sqrt ((p1x - p2x) * (p1x - p2x) + (p1y - p2y) * (p1y - p2y))
      = Real.sqrt ((p2x - p1x) * (p2x - p1x) + (p2y - p1y) * (p2y - p1y)) := by
    congr 1
    ring
  have hne : ¬ Real.sqrt ((p2x - p1x) * (p2x - p1x) + (p2y - p1y) * (p2y - p1y))
      < 0.0001 := not_lt.mpr hsep
  have hdpos : (0:ℝ)
      < Real.sqrt ((p2x - p1x) * (p2x - p1x) + (p2y - p1y) * (p2y - p1y)) :=
    lt_of_lt_of_le (by norm_num) hsep
  simp only [resolve_collision, hd, if_neg hne]
  set d := Real.sqrt ((p2x - p1x) * (p2x - p1x) + (p2y - p1y) * (p2y - p1y)) with hdef
  have hvan : (v1x - v2x) * ((p1x - p2x) / d) + (v1y - v2y) * ((p1y - p2y) / d)
      = (v2x - v1x) * ((p2x - p1x) / d) + (v2y - v1y) * ((p2y - p1y) / d) := by
    field_simp
    ring
  rw [hvan]
  split_ifs with hs
  all_goals constructor
  all_goals simp only [Player.mk.injEq, Prod.mk.injEq]
  all_goals and_intros
  all_goals first
    | rfl
    | (field_simp; ring)
    | field_simp

/-- Witness for C4 at a concrete overlapping pair 30 units apart. -/
theorem resolve_collision_symmetric_witness :
    (0.0001 ≤ Real.sqrt
      (((Player.init 30 0 1).pos.1 - (Player.init 0 0 0).pos.1)
          * ((Player.init 30 0 1).pos.1 - (Player.init 0 0 0).pos.1)
        + ((Player.init 30 0 1).pos.2 - (Player.init 0 0 0).pos.2)
          * ((Player.init 30 0 1).pos.2 - (Player.init 0 0 0).pos.2)))
    ∧ check_collision (Player.init 0 0 0) (Player.init 30 0 1)
    ∧ (resolve_collision 0 (Player.init 0 0 0) (Player.init 30 0 1) 1).1
        = (resolve_collision 1 (Player.init 30 0 1) (Player.init 0 0 0) 1).2
    ∧ (resolve_collision 0 (Player.init 0 0 0) (Player.init 30 0 1) 1).2
        = (resolve_collision 1 (Player.init 30 0 1) (Player.init 0 0 0) 1).1 := by
  have h900 : Real.sqrt 900 = 30 := by
    rw [show (900:ℝ) = 30 ^ 2 by norm_num, Real.sqrt_sq (by norm_num)]
  have h1 : (0.0001 : ℝ) ≤ Real.sqrt
      (((Player.init 30 0 1).pos.1 - (Player.init 0 0 0).pos.1)
          * ((Player.init 30 0 1).pos.1 - (Player.init 0 0 0).pos.1)
        + ((Player.init 30 0 1).pos.2 - (Player.init 0 0 0).pos.2)
          * ((Player.init 30 0 1).pos.2 - (Player.init 0 0 0).pos.2)) := by
    show (0.0001 : ℝ) ≤ Real.sqrt ((30 - 0) * (30 - 0) + (0 - 0) * (0 - 0))
    norm_num [h900]
  have h2 : check_collision (Player.init 0 0 0) (Player.init 30 0 1) := by
    show (30 - 0 : ℝ) * (30 - 0) + (0 - 0) * (0 - 0) < (20 + 20) * (20 + 20)
    norm_num
  have h := resolve_collision_symmetric 0 1 (Player.init 0 0 0) (Player.init 30 0 1)
    1 h1 h2
  exact ⟨h1, h2, h.1, h.2⟩

/-- Counterexample to C5 as stated: for the concrete overlapping pair at
distance 30 with radii 20 (overlap 10), resolve_collision displaces the
first entity to x = -6, a displacement of overlap * 0.6 for this single
entity, not the overlap * 0.3 that an even split of a total 0.6 * overlap
correction would give. -/
theorem positional_correction_counterexample :
    check_collision (Player.init 0 0 0) (Player.init 30 0 1)
    ∧ (resolve_collision 0 (Player.init 0 0 0) (Player.init 30 0 1) 1).1.pos.1 = -6
    ∧ ((-6 : ℝ) ≠ (Player.init 0 0 0).pos.1
        - ((Player.init 0 0 0).radius + (Player.init 30 0 1).radius - 30) * 0.3) := by
  have h900 : Real.sqrt 900 = 30 := by
    rw [show (900:ℝ) = 30 ^ 2 by norm_num, Real.sqrt_sq (by norm_num)]
  refine ⟨?_, ?_, ?_⟩
  · show (30 - 0 : ℝ) * (30 - 0) + (0 - 0) * (0 - 0) < (20 + 20) * (20 + 20)
    norm_num
  · have hd : Real.sqrt (((30:ℝ) - 0) * (30 - 0) + ((0:ℝ) - 0) * (0 - 0)) = 30 := by
      norm_num [h900]
    simp only [resolve_collision, Player.init, PLAYER_RADIUS]
    norm_num [hd, h900]
  · show (-6 : ℝ) ≠ 0 - (20 + 20 - 30) * 0.3
    norm_num

/-- C5 amended: for every detected overlap with non-coincident centers,
the positional correction displaces each entity by overlap * 0.6 along
the collision normal away from the other entity (so the total separation
applied is overlap * 1.2, not overlap * 0.6 split evenly). -/
theorem positional_correction_amended (ang : ℝ) (e1 e2 : Player) (m : ℝ)
    (hsep : 0.0001 ≤ centerDistance e1 e2) (hov : check_collision e1 e2) :
    (resolve_collision ang e1 e2 m).1.pos
      = (e1.pos.1 - (e2.pos.1 - e1.pos.1) / centerDistance e1 e2
            * ((e1.radius + e2.radius - centerDistance e1 e2) * 0.6),
         e1.pos.2 - (e2.pos.2 - e1.pos.2) / centerDistance e1 e2
            * ((e1.radius + e2.radius - centerDistance e1 e2) * 0.6))
    ∧ (resolve_collision ang e1 e2 m).2.pos
      = (e2.pos.1 + (e2.pos.1 - e1.pos.1) / centerDistance e1 e2
            * ((e1.radius + e2.radius - centerDistance e1 e2) * 0.6),
         e2.pos.2 + (e2.pos.2 - e1.pos.2) / centerDistance e1 e2
            * ((e1.radius + e2.radius - centerDistance e1 e2) * 0.6)) := by
  have hne : ¬ Real.sqrt ((e2.pos.1 - e1.pos.1) * (e2.pos.1 - e1.pos.1)
      + (e2.pos.2 - e1.pos.2) * (e2.pos.2 - e1.pos.2)) < 0.0001 := by
    rw [centerDistance] at hsep
    exact not_lt.mpr hsep
  simp only [resolve_collision, centerDistance, if_neg hne]
  split_ifs with hs
  · exact ⟨rfl, rfl⟩
  · exact ⟨rfl, rfl⟩

/-- Witness for the amended C5 at the concrete pair at distance 30. -/
theorem positional_correction_amended_witness :
    (0.0001 ≤ centerDistance (Player.init 0 0 0) (Player.init 30 0 1))
    ∧ check_collision (Player.init 0 0 0) (Player.init 30 0 1)
    ∧ (resolve_collision 0 (Player.init 0 0 0) (Player.init 30 0 1) 1).1.pos
      = ((Player.init 0 0 0).pos.1
          - ((Player.init 30 0 1).pos.1 - (Player.init 0 0 0).pos.1)
              / centerDistance (Player.init 0 0 0) (Player.init 30 0 1)
            * (((Player.init 0 0 0).radius + (Player.init 30 0 1).radius
                - centerDistance (Player.init 0 0 0) (Player.init 30 0 1)) * 0.6),
         (Player.init 0 0 0).pos.2
          - ((Player.init 30 0 1).pos.2 - (Player.init 0 0 0).pos.2)
              / centerDistance (Player.init 0 0 0) (Player.init 30 0 1)
            * (((Player.init 0 0 0).radius + (Player.init 30 0 1).radius
                - centerDistance (Player.init 0 0 0) (Player.init 30 0 1)) * 0.6)) := by
  have h900 : Real.sqrt 900 = 30 := by
    rw [show (900:ℝ) = 30 ^ 2 by norm_num, Real.sqrt_sq (by norm_num)]
  have h1 : (0.0001 : ℝ) ≤ centerDistance (Player.init 0 0 0) (Player.init 30 0 1) := by
    show (0.0001 : ℝ) ≤ Real.sqrt ((30 - 0) * (30 - 0) + (0 - 0) * (0 - 0))
    norm_num [h900]
  have h2 : check_collision (Player.init 0 0 0) (Player.init 30 0 1) := by
    show (30 - 0 : ℝ) * (30 - 0) + (0 - 0) * (0 - 0) < (20 + 20) * (20 + 20)
    norm_num
  exact ⟨h1, h2,
    (positional_correction_amended 0 (Player.init 0 0 0) (Player.init 30 0 1) 1
      h1 h2).1⟩

/-! ## Frame-level helper lemmas for the round orchestrator -/

theorem resolve_collision_fields (ang : ℝ) (e1 e2 : Player) (m : ℝ) :
    ((resolve_collision ang e1 e2 m).1.alive = e1.alive
      ∧ (resolve_collision ang e1 e2 m).1.player_id = e1.player_id)
    ∧ ((resolve_collision ang e1 e2 m).2.alive = e2.alive
      ∧ (resolve_collision ang e1 e2 m).2.player_id = e2.player_id) := by
  simp only [resolve_collision]
  split_ifs <;> exact ⟨⟨rfl, rfl⟩, rfl, rfl⟩

theorem apply_powerup_fields (t : PowerUpType) (p : Player) :
    (GameScene.apply_powerup t p).alive = p.alive
    ∧ (GameScene.apply_powerup t p).player_id = p.player_id := by
  cases t <;> exact ⟨rfl, rfl⟩

theorem shake_update_hitstop {sh : ScreenShake} {dt : ℝ}
    (h : sh.hitstop_elapsed < sh.hitstop_duration) :
    sh.update dt = ({ sh with hitstop_elapsed := sh.hitstop_elapsed + dt }, dt * 0.1) := by
  simp only [ScreenShake.update, if_pos h]

theorem foldl_invariant {α β : Type} (Inv : β → Prop) (f : β → α → β)
    (hstep : ∀ b a, Inv b → Inv (f b a)) :
    ∀ (l : List α) (b : β), Inv b → Inv (l.foldl f b)
  | [], b, h0 => h0
  | a :: l, b, h0 => by
    rw [List.foldl_cons]
    exact foldl_invariant Inv f hstep l (f b a) (hstep b a h0)

theorem collideWith_preserves (angO : ℕ → ℝ) (i : ℕ) (base : List Player)
    (st : CollState) (j : ℕ)
    (h : st.players.length = base.length
      ∧ ∀ k, (st.players.get? k).map (fun p => (p.alive, p.player_id))
          = (base.get? k).map (fun p => (p.alive, p.player_id))) :
    (collideWith angO i st j).players.length = base.length
    ∧ ∀ k, ((collideWith angO i st j).players.get? k).map
          (fun p => (p.alive, p.player_id))
        = (base.get? k).map (fun p => (p.alive, p.player_id)) := by
  rcases h with ⟨hlen, hfields⟩
  rcases hgi : st.players.get? i with _ | p1
  · simp only [collideWith, hgi]
    exact ⟨hlen, hfields⟩
  rcases hgj : st.players.get? j with _ | p2
  · simp only [collideWith, hgi, hgj]
    exact ⟨hlen, hfields⟩
  simp only [collideWith, hgi, hgj]
  have hilt : i < st.players.length := by
    by_contra hge
    rw [List.get?_eq_none.mpr (not_lt.mp hge)] at hgi
    cases hgi
  have hjlt : j < st.players.length := by
    by_contra hge
    rw [List.get?_eq_none.mpr (not_lt.mp hge)] at hgj
    cases hgj
  have hset : ∀ r1 r2 : Player,
      r1.alive = p1.alive → r1.player_id = p1.player_id →
      r2.alive = p2.alive → r2.player_id = p2.player_id →
      ((st.players.set i r1).set j r2).length = base.length
      ∧ ∀ k, (((st.players.set i r1).set j r2).get? k).map
            (fun p => (p.alive, p.player_id))
          = (base.get? k).map (fun p => (p.alive, p.player_id)) := by
    intro r1 r2 ha1 hb1 ha2 hb2
    constructor
    · rw [List.length_set, List.length_set, hlen]
    · intro k
      by_cases hkj : k = j
      · subst hkj
        rw [List.get?_set_eq_of_lt _ (by rw [List.length_set]; exact hjlt)]
        rw [← hfields k, hgj]
        simp only [Option.map_some', ha2, hb2]
      · rw [List.get?_set_ne _ _ (fun he => hkj he.symm)]
        by_cases hki : k = i
        · subst hki
          rw [List.get?_set_eq_of_lt _ hilt]
          rw [← hfields k, hgi]
          simp only [Option.map_some', ha1, hb1]
        · rw [List.get?_set_ne _ _ (fun he => hki he.symm)]
          exact hfields k
  rcases resolve_collision_fields (angO st.rand_count) p1 p2 1
    with ⟨⟨ha1, hb1⟩, ha2, hb2⟩
  split_ifs
  all_goals first
    | exact ⟨hlen, hfields⟩
    | exact hset _ _ ha1 hb1 ha2 hb2

theorem collisionPhase_preserves (angO : ℕ → ℝ) (aliveIdx : List ℕ)
    (grid : SpatialGrid) (players : List Player) (shake : ScreenShake) :
    (collisionPhase angO aliveIdx grid players shake).players.length = players.length
    ∧ ∀ k, ((collisionPhase angO aliveIdx grid players shake).players.get? k).map
          (fun p => (p.alive, p.player_id))
        = (players.get? k).map (fun p => (p.alive, p.player_id)) := by
  have hmain : ∀ st : CollState,
      (st.players.length = players.length
        ∧ ∀ k, (st.players.get? k).map (fun p => (p.alive, p.player_id))
            = (players.get? k).map (fun p => (p.alive, p.player_id))) →
      ((aliveIdx.foldl (collideOuter angO grid) st).players.length = players.length
        ∧ ∀ k, ((aliveIdx.foldl (collideOuter angO grid) st).players.get? k).map
              (fun p => (p.alive, p.player_id))
            = (players.get? k).map (fun p => (p.alive, p.player_id))) := by
    intro st h0
    refine foldl_invariant (fun s => s.players.length = players.length
        ∧ ∀ k, (s.players.get? k).map (fun p => (p.alive, p.player_id))
            = (players.get? k).map (fun p => (p.alive, p.player_id)))
      (collideOuter angO grid) ?_ aliveIdx st h0
    intro st' i hInv
    rcases hg : st'.players.get? i with _ | p1
    · simp only [collideOuter, hg]
      exact hInv
    simp only [collideOuter, hg]
    exact foldl_invariant (fun s => s.players.length = players.length
        ∧ ∀ k, (s.players.get? k).map (fun p => (p.alive, p.player_id))
            = (players.get? k).map (fun p => (p.alive, p.player_id)))
      (collideWith angO i)
      (fun b a hb => collideWith_preserves angO i players b a hb)
      ((grid.get_nearby p1.pos)) st' hInv
  exact hmain _ ⟨rfl, fun _ => rfl⟩

theorem playerStep_spec {inputs : ℕ → Keys} {dt : ℝ} {plat : Platform}
    {st : LoopState} {i : ℕ} {st' : LoopState}
    (h : GameScene.playerStep inputs dt plat st i = some st') :
    ∃ p, st.players.get? i = some p
    ∧ ((p.alive = false ∧ st' = st)
       ∨ (p.alive = true ∧ ∃ p2, st'.players = st.players.set i p2
            ∧ p2.player_id = p.player_id
            ∧ ((p2.alive = true ∧ st'.aliveIdx = st.aliveIdx ++ [i])
               ∨ (p2.alive = false ∧ st'.aliveIdx = st.aliveIdx)))) := by
  rcases hg : st.players.get? i with _ | p
  · rw [GameScene.playerStep, hg] at h
    cases h
  rw [GameScene.playerStep, hg] at h
  simp only [Option.some_bind] at h
  refine ⟨p, rfl, ?_⟩
  by_cases hal : p.alive = true
  · rw [if_pos hal] at h
    rcases Option.bind_eq_some.mp h with ⟨p1, hup, h2⟩
    rcases update_spec hup with ⟨hal1, hpid1, _⟩
    right
    refine ⟨hal, ?_⟩
    split_ifs at h2 with hcont
    · cases h2
      rcases hpk : (st.mgr.check_pickups p1).1 with _ | t
      all_goals simp only [hpk]
      · exact ⟨p1, rfl, hpid1, Or.inl ⟨hal1.trans hal, by simp⟩⟩
      · exact ⟨GameScene.apply_powerup t p1, rfl,
          (apply_powerup_fields t p1).2.trans hpid1,
          Or.inl ⟨((apply_powerup_fields t p1).1.trans hal1).trans hal, by simp⟩⟩
    · cases h2
      rcases hpk : (st.mgr.check_pickups p1).1 with _ | t
      all_goals simp only [hpk]
      · exact ⟨p1.eliminate, rfl, hpid1, Or.inr ⟨rfl, by simp⟩⟩
      · exact ⟨(GameScene.apply_powerup t p1).eliminate, rfl,
          (apply_powerup_fields t p1).2.trans hpid1, Or.inr ⟨rfl, by simp⟩⟩
  · rw [if_neg hal] at h
    cases h
    exact Or.inl ⟨Bool.not_eq_true p.alive ▸ hal, rfl⟩

theorem playerLoop_spec (inputs : ℕ → Keys) (dt : ℝ) (plat : Platform) :
    ∀ (idxs : List ℕ) (st st' : LoopState),
    GameScene.playerLoop inputs dt plat idxs st = some st' →
    idxs.Nodup →
    st'.players.length = st.players.length
    ∧ (∀ k, k ∉ idxs → st'.players.get? k = st.players.get? k)
    ∧ (∀ k, (st'.players.get? k).map Player.player_id
        = (st.players.get? k).map Player.player_id)
    ∧ st'.aliveIdx = st.aliveIdx
        ++ idxs.filter (fun i => ((st'.players.get? i).map Player.alive).getD false)
  | [], st, st', h, _ => by
    cases h
    exact ⟨rfl, fun _ _ => rfl, fun _ => rfl, by simp⟩
  | i :: rest, st, st', h, nd => by
    rw [GameScene.playerLoop] at h
    rcases Option.bind_eq_some.mp h with ⟨st1, hstep, hrest⟩
    have ndr : rest.Nodup := (List.nodup_cons.mp nd).2
    have hnotin : i ∉ rest := (List.nodup_cons.mp nd).1
    rcases playerLoop_spec inputs dt plat rest st1 st' hrest ndr with
      ⟨ihlen, ihout, ihpid, ihalive⟩
    rcases playerStep_spec hstep with ⟨p, hget, hcase⟩
    have hilt : i < st.players.length := by
      by_contra hge
      rw [List.get?_eq_none.mpr (not_lt.mp hge)] at hget
      cases hget
    rcases hcase with ⟨hdead, hst1⟩ | ⟨halive, p2, hset, hpid2, hsub⟩
    · subst hst1
      refine ⟨ihlen, ?_, ihpid, ?_⟩
      · intro k hk
        exact ihout k (fun hm => hk (List.mem_cons_of_mem i hm))
      · rw [ihalive, List.filter_cons]
        have hfi : ((st'.players.get? i).map Player.alive).getD false = false := by
          rw [ihout i hnotin, hget]
          simp [hdead]
        rw [hfi]
        simp
    · -- the combatant was processed: entry i set to p2
      have hget1 : st1.players.get? i = some p2 := by
        rw [hset]
        exact List.get?_set_eq_of_lt _ hilt
      have huntouched : ∀ k, k ≠ i → st1.players.get? k = st.players.get? k := by
        intro k hk
        rw [hset]
        exact List.get?_set_ne _ _ (fun he => hk he.symm)
      refine ⟨?_, ?_, ?_, ?_⟩
      · rw [ihlen, hset, List.length_set]
      · intro k hk
        have hki : k ≠ i := fun he => hk (he ▸ List.mem_cons_self i rest)
        rw [ihout k (fun hm => hk (List.mem_cons_of_mem i hm)), huntouched k hki]
      · intro k
        rw [ihpid k]
        by_cases hki : k = i
        · subst hki
          rw [hget1, hget]
          simp [hpid2]
        · rw [huntouched k hki]
      · rw [ihalive, List.filter_cons]
        have hgi' : st'.players.get? i = some p2 := by
          rw [ihout i hnotin, hget1]
        rcases hsub with ⟨hal2, hidx⟩ | ⟨hal2, hidx⟩
        · have hfi : ((st'.players.get? i).map Player.alive).getD false = true := by
            rw [hgi']
            simp [hal2]
          rw [hfi, hidx]
          simp
        · have hfi : ((st'.players.get? i).map Player.alive).getD false = false := by
            rw [hgi']
            simp [hal2]
          rw [hfi, hidx]
          simp

theorem length_filter_range {α : Type} (f : α → Bool) : ∀ l : List α,
    ((List.range l.length).filter (fun i => ((l.get? i).map f).getD false)).length
      = (l.filter f).length
  | [] => by simp
  | a :: t => by
    rw [List.length_cons, List.range_succ_eq_map, List.filter_cons, List.filter_cons]
    have hmap : ((List.range t.length).map Nat.succ).filter
          (fun i => (((a :: t).get? i).map f).getD false)
        = ((List.range t.length).filter
            (fun j => ((t.get? j).map f).getD false)).map Nat.succ := by
      rw [List.filter_map]
      rfl
    have h0 : ((((a :: t).get? 0).map f).getD false) = f a := rfl
    rw [hmap, h0]
    split_ifs with hfa <;>
      simp only [List.length_cons, List.length_map] <;>
      rw [length_filter_range f t]

theorem filter_eq_singleton_of_unique {α : Type} (f : α → Bool) :
    ∀ (l : List α) (i : ℕ) (hi : i < l.length),
      f (l.get ⟨i, hi⟩) = true →
      (∀ j (hj : j < l.length), j ≠ i → f (l.get ⟨j, hj⟩) = false) →
      l.filter f = [l.get ⟨i, hi⟩]
  | [], i, hi, _, _ => absurd hi (by simp)
  | a :: t, 0, hi, hf, huniq => by
    simp only [List.get] at hf ⊢
    rw [List.filter_cons, if_pos hf]
    have ht : t.filter f = [] := by
      rw [List.filter_eq_nil_iff]
      intro x hx
      rcases List.mem_iff_get.mp hx with ⟨⟨j, hj⟩, hxj⟩
      have := huniq (j + 1) (Nat.succ_lt_succ hj) (Nat.succ_ne_zero j)
      simp only [List.get] at this
      rw [← hxj]
      simpa using this
    rw [ht]
  | a :: t, i + 1, hi, hf, huniq => by
    simp only [List.get] at hf ⊢
    rw [List.filter_cons]
    have ha : f a = false := by
      have := huniq 0 (Nat.succ_pos _) (Nat.succ_ne_zero i).symm
      simpa using this
    rw [if_neg (by simp [ha])]
    exact filter_eq_singleton_of_unique f t i (Nat.lt_of_succ_lt_succ hi) hf
      (fun j hj hne => by
        have := huniq (j + 1) (Nat.succ_lt_succ hj) (fun he => hne (Nat.succ_injective he))
        simpa using this)

theorem filter_eq_nil_of_indices {α : Type} (f : α → Bool) (l : List α)
    (h : ∀ j (hj : j < l.length), f (l.get ⟨j, hj⟩) = false) :
    l.filter f = [] := by
  rw [List.filter_eq_nil_iff]
  intro x hx
  rcases List.mem_iff_get.mp hx with ⟨⟨j, hj⟩, hxj⟩
  rw [← hxj]
  simpa using h j hj

set_option maxHeartbeats 2000000 in
/-- C1: at the end of every Active-phase frame update (the countdown is
over and the round is not yet over) in which at most one combatant
remains alive, the orchestrator sets the game-over flag in that same
frame; the recorded winner is none when nobody survived (a draw), and
when exactly one combatant survived the winner is exactly that combatant
and exactly its score entry is incremented by one, every other entry
being unchanged. -/
theorem win_detection (inputs : ℕ → Keys) (spawnO : ℝ × ℝ × PowerUpType)
    (angO : ℕ → ℝ) (dt : ℝ) (s s' : GameScene)
    (hstart : s.game_started = true) (hover : s.game_over = false)
    (h : GameScene.update inputs spawnO angO dt s = some s')
    (hle : (s'.players.filter (fun p => p.alive)).length ≤ 1) :
    s'.game_over = true
    ∧ (s'.players.filter (fun p => p.alive) = [] →
        s'.winner = none ∧ s'.scores = s.scores)
    ∧ (∀ w, s'.players.filter (fun p => p.alive) = [w] →
        s'.winner = some w
        ∧ s'.scores.length = s.scores.length
        ∧ s'.scores.get? w.player_id = (s.scores.get? w.player_id).map (· + 1)
        ∧ ∀ j, j ≠ w.player_id → s'.scores.get? j = s.scores.get? j) := by
  rw [GameScene.update, hstart, hover] at h
  rw [if_neg (show ¬((true : Bool) = false) by simp)] at h
  rw [if_neg (show ¬((false : Bool) = true) by simp)] at h
  rcases Option.bind_eq_some.mp h with ⟨st, hloop, hwin⟩
  dsimp only at hwin
  -- facts from the per-combatant loop
  rcases playerLoop_spec inputs dt _ (List.range s.players.length) _ st hloop
    (List.nodup_range _) with ⟨hlen, _, _, halive⟩
  dsimp only at hlen halive
  rw [List.nil_append] at halive
  -- facts from the collision phase
  rcases collisionPhase_preserves angO st.aliveIdx st.grid st.players st.shake with
    ⟨hclen, hcfields⟩
  have hcalive : ∀ k,
      (((collisionPhase angO st.aliveIdx st.grid st.players st.shake).players.get?
          k).map Player.alive).getD false
        = ((st.players.get? k).map Player.alive).getD false := by
    intro k
    rcases hg : st.players.get? k with _ | p <;>
      rcases hg2 : (collisionPhase angO st.aliveIdx st.grid st.players
          st.shake).players.get? k with _ | q <;>
      (have hthis := hcfields k; rw [hg, hg2] at hthis)
    all_goals first
      | rfl
      | (simp only [Option.map_some', Option.some.injEq, Prod.mk.injEq] at hthis
         simp only [Option.map_some', Option.getD_some]
         exact hthis.1)
      | simp at hthis
  have hpidc : ∀ k,
      ((collisionPhase angO st.aliveIdx st.grid st.players st.shake).players.get?
          k).map Player.player_id
        = (st.players.get? k).map Player.player_id := by
    intro k
    rcases hg : st.players.get? k with _ | p <;>
      rcases hg2 : (collisionPhase angO st.aliveIdx st.grid st.players
          st.shake).players.get? k with _ | q <;>
      (have hthis := hcfields k; rw [hg, hg2] at hthis)
    all_goals first
      | rfl
      | (simp only [Option.map_some', Option.some.injEq, Prod.mk.injEq] at hthis
         simp only [Option.map_some', Option.some.injEq]
         exact hthis.2)
      | simp at hthis
  -- the alive indices are exactly the indices of the alive survivors
  have halive' : st.aliveIdx = (List.range s.players.length).filter
      (fun i => (((collisionPhase angO st.aliveIdx st.grid st.players
          st.shake).players.get? i).map Player.alive).getD false) :=
    halive.trans (List.filter_congr (fun i _ => (hcalive i).symm))
  have hclen' : (collisionPhase angO st.aliveIdx st.grid st.players
      st.shake).players.length = s.players.length := by
    rw [hclen, hlen]
  have hcount : st.aliveIdx.length
      = ((collisionPhase angO st.aliveIdx st.grid st.players
          st.shake).players.filter (fun p => p.alive)).length := by
    conv_lhs => rw [halive']
    have := length_filter_range (fun p : Player => p.alive)
      (collisionPhase angO st.aliveIdx st.grid st.players st.shake).players
    rw [hclen'] at this
    exact this
  rcases le_or_lt st.aliveIdx.length 1 with hcnt | hcnt
  · -- the win-check branch was taken: _end_round ran this frame
    rw [if_pos hcnt] at hwin
    rcases hx : st.aliveIdx with _ | ⟨i, rest⟩
    · -- no survivor: a draw
      have hhead : st.aliveIdx.head? = none := by rw [hx]; rfl
      rw [hhead] at hwin
      rw [GameScene.end_round] at hwin
      cases hwin
      have hnil : ((collisionPhase angO st.aliveIdx st.grid st.players
          st.shake).players.filter (fun p => p.alive)) = [] := by
        have h0 : st.aliveIdx.length = 0 := by rw [hx]; rfl
        rw [hcount] at h0
        exact List.length_eq_zero.mp h0
      refine ⟨rfl, fun _ => ⟨rfl, rfl⟩, ?_⟩
      intro w hw
      exact absurd (hnil.symm.trans hw) (by simp)
    · -- exactly one survivor (the checked-branch bound forces rest = [])
      have hrest : rest = [] := by
        rw [hx] at hcnt
        simp only [List.length_cons] at hcnt
        exact List.eq_nil_of_length_eq_zero (by omega)
      subst hrest
      have hhead : st.aliveIdx.head? = some i := by rw [hx]; rfl
      rw [hhead] at hwin
      rw [GameScene.end_round] at hwin
      dsimp only at hwin
      -- the winner index is inside the list and alive
      have hiQ : (((collisionPhase angO st.aliveIdx st.grid st.players
          st.shake).players.get? i).map Player.alive).getD false = true := by
        have hmem : i ∈ (List.range s.players.length).filter
            (fun k => (((collisionPhase angO st.aliveIdx st.grid st.players
                st.shake).players.get? k).map Player.alive).getD false) := by
          rw [← halive', hx]
          exact List.mem_singleton.mpr rfl
        exact (List.mem_filter.mp hmem).2
      rcases hgw : (collisionPhase angO st.aliveIdx st.grid st.players
          st.shake).players.get? i with _ | w0
      · rw [hgw] at hiQ
        cases hiQ
      have hw0alive : w0.alive = true := by
        rw [hgw] at hiQ
        simpa using hiQ
      rw [hgw] at hwin
      dsimp only at hwin
      -- the score update must have been in range, else the frame dies
      rcases hdite : (Nat.decLt w0.player_id s.scores.length) with hout | hin
      · rw [dif_neg hout] at hwin
        cases hwin
      rw [dif_pos hin] at hwin
      cases hwin
      -- the surviving combatant at index i, with its kill counter bumped
      have hilen : i < (collisionPhase angO st.aliveIdx st.grid st.players
          st.shake).players.length := by
        rcases List.get?_eq_some.mp hgw with ⟨hh, _⟩
        exact hh
      have hi' : i < ((collisionPhase angO st.aliveIdx st.grid st.players
          st.shake).players.set i { w0 with kills := w0.kills + 1 }).length := by
        rw [List.length_set]
        exact hilen
      -- every other index holds a dead combatant after the collision phase
      have hQfalse : ∀ j, j < s.players.length → j ≠ i →
          (((collisionPhase angO st.aliveIdx st.grid st.players
              st.shake).players.get? j).map Player.alive).getD false = false := by
        intro j hjlen hj
        cases hq : (((collisionPhase angO st.aliveIdx st.grid st.players
            st.shake).players.get? j).map Player.alive).getD false
        · rfl
        · exfalso
          have hmem : j ∈ (List.range s.players.length).filter
              (fun k => (((collisionPhase angO st.aliveIdx st.grid st.players
                  st.shake).players.get? k).map Player.alive).getD false) :=
            List.mem_filter.mpr ⟨List.mem_range.mpr hjlen, hq⟩
          rw [← halive', hx] at hmem
          exact hj (List.mem_singleton.mp hmem)
      -- the element stored at index i of the final player list
      have hset_i : ((collisionPhase angO st.aliveIdx st.grid st.players
          st.shake).players.set i { w0 with kills := w0.kills + 1 }).get? i
            = some { w0 with kills := w0.kills + 1 } :=
        List.get?_set_eq_of_lt _ hilen
      have hget_i : ((collisionPhase angO st.aliveIdx st.grid st.players
          st.shake).players.set i { w0 with kills := w0.kills + 1 }).get ⟨i, hi'⟩
            = { w0 with kills := w0.kills + 1 } := by
        have h1 := List.get?_eq_get hi'
        rw [hset_i] at h1
        exact (Option.some_inj.mp h1).symm
      -- the final player list filters to exactly the winner
      have hfilter : (((collisionPhase angO st.aliveIdx st.grid st.players
          st.shake).players.set i { w0 with kills := w0.kills + 1 }).filter
            (fun p => p.alive)) = [{ w0 with kills := w0.kills + 1 }] := by
        have hmain := filter_eq_singleton_of_unique (fun p => p.alive)
          ((collisionPhase angO st.aliveIdx st.grid st.players
            st.shake).players.set i { w0 with kills := w0.kills + 1 }) i hi'
          (by rw [hget_i]; exact hw0alive)
          (by
            intro j hj hne
            show (((collisionPhase angO st.aliveIdx st.grid st.players
              st.shake).players.set i { w0 with kills := w0.kills + 1 }).get
                ⟨j, hj⟩).alive = false
            have hj' : j < (collisionPhase angO st.aliveIdx st.grid st.players
                st.shake).players.length := by
              rw [← List.length_set ((collisionPhase angO st.aliveIdx st.grid
                st.players st.shake).players) i]
              exact hj
            have hget?j : ((collisionPhase angO st.aliveIdx st.grid st.players
                st.shake).players.set i { w0 with kills := w0.kills + 1 }).get? j
                  = (collisionPhase angO st.aliveIdx st.grid st.players
                      st.shake).players.get? j :=
              List.get?_set_ne _ _ (Ne.symm hne)
            have hQj := hQfalse j (by rw [← hclen']; exact hj') hne
            rw [List.get?_eq_get hj'] at hQj
            simp only [Option.map_some', Option.getD_some] at hQj
            have heq : (((collisionPhase angO st.aliveIdx st.grid st.players
                st.shake).players.set i { w0 with kills := w0.kills + 1 }).get
                  ⟨j, hj⟩)
                = (collisionPhase angO st.aliveIdx st.grid st.players
                    st.shake).players.get ⟨j, hj'⟩ := by
              have h1 := List.get?_eq_get hj
              rw [hget?j, List.get?_eq_get hj'] at h1
              exact (Option.some_inj.mp h1).symm
            rw [heq]
            exact hQj)
        rw [hget_i] at hmain
        exact hmain
      refine ⟨rfl, ?_, ?_⟩
      · intro hnil
        have h2 := hfilter.symm.trans hnil
        cases h2
      · intro w hw
        have hw2 : [{ w0 with kills := w0.kills + 1 }] = [w] := hfilter.symm.trans hw
        injection hw2 with hww _
        subst hww
        refine ⟨rfl, List.length_set _ _ _, ?_, ?_⟩
        · show (s.scores.set w0.player_id
              (s.scores.get ⟨w0.player_id, hin⟩ + 1)).get? w0.player_id
            = (s.scores.get? w0.player_id).map (· + 1)
          rw [List.get?_set_eq_of_lt _ hin, List.get?_eq_get hin]
          rfl
        · intro j hj
          show (s.scores.set w0.player_id
              (s.scores.get ⟨w0.player_id, hin⟩ + 1)).get? j = s.scores.get? j
          exact List.get?_set_ne _ _ (Ne.symm hj)
  · -- more than one survivor: contradiction with the at-most-one hypothesis
    rw [if_neg (not_le.mpr hcnt)] at hwin
    cases hwin
    exfalso
    dsimp only at hle
    rw [← hcount] at hle
    exact absurd hle (not_le.mpr hcnt)

theorem win_detection_witness :
    emptyScene.game_started = true ∧ emptyScene.game_over = false
    ∧ GameScene.update (fun _ => noKeys) ((0 : ℝ), (0 : ℝ), PowerUpType.shield)
        (fun _ => (0 : ℝ)) 16 emptyScene = some finalScene
    ∧ ((finalScene.players.filter (fun p => p.alive)).length ≤ 1)
    ∧ finalScene.game_over = true := by
  have hupd : GameScene.update (fun _ => noKeys) ((0 : ℝ), (0 : ℝ), PowerUpType.shield)
      (fun _ => (0 : ℝ)) 16 emptyScene = some finalScene := by
    norm_num [GameScene.update, emptyScene, finalScene, GameScene.playerLoop,
      GameScene.end_round, collisionPhase, PowerUpManager.update,
      PowerUpManager.init, SHRINK_START_TIME]
  have hle : ((finalScene.players.filter (fun p => p.alive)).length ≤ 1) := by
    norm_num [finalScene]
  exact ⟨rfl, rfl, hupd, hle,
    (win_detection (fun _ => noKeys) ((0 : ℝ), (0 : ℝ), PowerUpType.shield)
      (fun _ => (0 : ℝ)) 16 emptyScene finalScene rfl rfl hupd hle).1⟩

/-- C7 counterexample: in a frame with an active hit-stop window the
time-distortion collaborator returns the delta scaled to 10 percent
(here 100 of 1000 ms), yet the platform advances by the raw frame dt:
its radius ends at 300 - 20 * (1000 / 1000) = 280, not at the
300 - 20 * (100 / 1000) = 298 the claim's scaled delta would give. -/
theorem hitstop_platform_counterexample :
    cxScene.screen_shake.hitstop_elapsed < cxScene.screen_shake.hitstop_duration
    ∧ (cxScene.screen_shake.update 1000).2 = 1000 * 0.1
    ∧ (GameScene.update (fun _ => noKeys) ((0 : ℝ), (0 : ℝ), PowerUpType.shield)
        (fun _ => (0 : ℝ)) 1000 cxScene).map (fun s2 => s2.platform.radius)
      = some (PLATFORM_START_RADIUS - SHRINK_RATE * (1000 / 1000))
    ∧ PLATFORM_START_RADIUS - SHRINK_RATE * (1000 / 1000)
      ≠ PLATFORM_START_RADIUS - SHRINK_RATE * ((1000 * 0.1) / 1000) := by
  refine ⟨by norm_num [cxScene], ?_, ?_, ?_⟩
  · rw [ScreenShake.update, if_pos (by norm_num [cxScene])]
  · norm_num [GameScene.update, cxScene, finalScene, GameScene.playerLoop,
      GameScene.end_round, collisionPhase, PowerUpManager.update,
      PowerUpManager.init, Platform.update, Platform.init, SHRINK_START_TIME,
      SHRINK_RATE, PLATFORM_START_RADIUS, PLATFORM_MIN_RADIUS, max_def]
  · norm_num [PLATFORM_START_RADIUS, SHRINK_RATE]

set_option maxHeartbeats 1000000 in
/-- C7 (amended): during an active hit-stop window the time-distortion
collaborator returns the frame delta scaled to 10 percent, and the
combatant update of that frame advances by the scaled delta; the
platform shrink update, however, advances by the raw wall-clock dt
(game_scene.py line 186 passes dt, not the adjusted delta, to
platform.update). -/
theorem hitstop_scaled_dt_amended (inputs : ℕ → Keys) (spawnO : ℝ × ℝ × PowerUpType)
    (angO : ℕ → ℝ) (dt : ℝ) (s : GameScene) (p q : Player)
    (hstart : s.game_started = true) (hover : s.game_over = false)
    (hps : s.players = [p]) (hal : p.alive = true)
    (hmgr : s.powerup_manager.powerups = [])
    (hsp : s.powerup_manager.spawn_timer + dt < s.powerup_manager.spawn_interval)
    (hhs : s.screen_shake.hitstop_elapsed < s.screen_shake.hitstop_duration)
    (hrt : SHRINK_START_TIME < s.round_time + dt)
    (hq : p.update (inputs 0) (dt * 0.1) = some q)
    (hcp : (s.platform.update dt).contains_point q.pos)
    (hsc : q.player_id < s.scores.length) :
    (s.screen_shake.update dt).2 = dt * 0.1
    ∧ (GameScene.update inputs spawnO angO dt s).map
        (fun s2 => (s2.platform, s2.players.map Player.pos))
      = some (s.platform.update dt, [q.pos]) := by
  have hsu : s.screen_shake.update dt
      = ({ s.screen_shake with
            hitstop_elapsed := s.screen_shake.hitstop_elapsed + dt }, dt * 0.1) := by
    rw [ScreenShake.update, if_pos hhs]
  refine ⟨by rw [hsu], ?_⟩
  have hmgrU : (s.powerup_manager.update dt spawnO (s.platform.update dt)).powerups
      = [] := by
    rw [PowerUpManager.update]
    dsimp only
    rw [if_neg (not_le.mpr hsp)]
    dsimp only
    rw [hmgr]
    rfl
  have hstep : GameScene.playerStep inputs dt (s.platform.update dt)
      { players := [p], aliveIdx := [], grid := emptyGrid,
        shake := s.screen_shake,
        mgr := s.powerup_manager.update dt spawnO (s.platform.update dt) } 0
      = some { players := [q], aliveIdx := [0],
               grid := SpatialGrid.insert q.pos 0 emptyGrid,
               shake := { s.screen_shake with
                 hitstop_elapsed := s.screen_shake.hitstop_elapsed + dt },
               mgr := { s.powerup_manager.update dt spawnO (s.platform.update dt)
                          with powerups := [] } } := by
    rw [GameScene.playerStep]
    dsimp only
    rw [show (([p] : List Player).get? 0) = some p from rfl, Option.some_bind]
    rw [if_pos hal]
    rw [hsu]
    dsimp only
    rw [hq, Option.some_bind]
    rw [PowerUpManager.check_pickups]
    dsimp only
    rw [hmgrU]
    rw [show checkPickupsList q [] = (none, []) from rfl]
    dsimp only
    rw [if_pos hcp]
    rfl
  have hloop : GameScene.playerLoop inputs dt (s.platform.update dt) [0]
      { players := [p], aliveIdx := [], grid := emptyGrid,
        shake := s.screen_shake,
        mgr := s.powerup_manager.update dt spawnO (s.platform.update dt) }
      = some { players := [q], aliveIdx := [0],
               grid := SpatialGrid.insert q.pos 0 emptyGrid,
               shake := { s.screen_shake with
                 hitstop_elapsed := s.screen_shake.hitstop_elapsed + dt },
               mgr := { s.powerup_manager.update dt spawnO (s.platform.update dt)
                          with powerups := [] } } := by
    rw [GameScene.playerLoop, hstep, Option.some_bind, GameScene.playerLoop]
  have hcw : ∀ (j : ℕ) (stc : CollState), stc.players = [q] →
      collideWith angO 0 stc j = stc := by
    intro j stc hstc
    match j with
    | 0 =>
      have hg : stc.players.get? 0 = some q := by rw [hstc]; rfl
      simp only [collideWith, hg]
      rw [if_neg (by simp)]
    | j' + 1 =>
      have hg0 : stc.players.get? 0 = some q := by rw [hstc]; rfl
      have hg : stc.players.get? (j' + 1) = none := by rw [hstc]; rfl
      simp only [collideWith, hg0, hg]
  have hfold : ∀ (l : List ℕ) (stc : CollState), stc.players = [q] →
      l.foldl (collideWith angO 0) stc = stc := by
    intro l
    induction l with
    | nil => intro stc _; rfl
    | cons j t ih =>
      intro stc hstc
      rw [List.foldl_cons, hcw j stc hstc]
      exact ih stc hstc
  have hcoll : collisionPhase angO [0] (SpatialGrid.insert q.pos 0 emptyGrid) [q]
      { s.screen_shake with hitstop_elapsed := s.screen_shake.hitstop_elapsed + dt }
      = { players := [q],
          shake := { s.screen_shake with
            hitstop_elapsed := s.screen_shake.hitstop_elapsed + dt },
          checked := [], rand_count := 0 } := by
    have h1 : collisionPhase angO [0] (SpatialGrid.insert q.pos 0 emptyGrid) [q]
        { s.screen_shake with hitstop_elapsed := s.screen_shake.hitstop_elapsed + dt }
        = ((SpatialGrid.insert q.pos 0 emptyGrid).get_nearby q.pos).foldl
            (collideWith angO 0)
            { players := [q],
              shake := { s.screen_shake with
                hitstop_elapsed := s.screen_shake.hitstop_elapsed + dt },
              checked := [], rand_count := 0 } := rfl
    rw [h1]
    exact hfold _ _ rfl
  rw [GameScene.update]
  rw [if_neg (show ¬(s.game_started = false) by rw [hstart]; simp)]
  rw [if_neg (show ¬(s.game_over = true) by rw [hover]; simp)]
  dsimp only
  rw [if_pos hrt]
  rw [hps]
  rw [show (List.range ([p] : List Player).length) = [0] from rfl]
  rw [hloop, Option.some_bind]
  dsimp only
  rw [hcoll]
  dsimp only
  rw [if_pos (show (([0] : List ℕ).length ≤ 1) by simp)]
  rw [show ([0] : List ℕ).head? = some 0 from rfl]
  rw [GameScene.end_round]
  rw [show (([q] : List Player).get? 0) = some q from rfl]
  dsimp only
  rw [dif_pos hsc]
  rfl

theorem hitstop_scaled_dt_amended_witness :
    (hsScene.screen_shake.update 1000).2 = 1000 * 0.1
    ∧ (GameScene.update (fun _ => noKeys) ((0 : ℝ), (0 : ℝ), PowerUpType.shield)
        (fun _ => (0 : ℝ)) 1000 hsScene).map
        (fun s2 => (s2.platform, s2.players.map Player.pos))
      = some (hsScene.platform.update 1000, [(Player.init 640 360 0).pos]) := by
  have hq1 : (Player.init 640 360 0).update noKeys (1000 * 0.1)
      = some (Player.init 640 360 0) := by
    norm_num [Player.update, Player.init, Player.updateCooldown, Player.updateBuffer,
      Player.dashPhase, Player.dashTrigger, Player.bufferedFire, moveOf, noKeys,
      Player.physicsPhase, vscale, vadd, vlen, Real.sqrt_zero, FRICTION,
      PLAYER_SPEED, SCREEN_WIDTH, SCREEN_HEIGHT, max_def, min_def]
  have hcp1 : (hsScene.platform.update 1000).contains_point
      (Player.init 640 360 0).pos := by
    norm_num [hsScene, Platform.update, Platform.init, Platform.contains_point,
      Player.init, PLATFORM_START_RADIUS, PLATFORM_MIN_RADIUS, SHRINK_RATE,
      SCREEN_WIDTH, SCREEN_HEIGHT, max_def]
  exact hitstop_scaled_dt_amended (fun _ => noKeys)
    ((0 : ℝ), (0 : ℝ), PowerUpType.shield) (fun _ => (0 : ℝ)) 1000 hsScene
    (Player.init 640 360 0) (Player.init 640 360 0) rfl rfl rfl rfl rfl
    (by norm_num [hsScene, PowerUpManager.init])
    (by norm_num [hsScene])
    (by norm_num [hsScene, SHRINK_START_TIME])
    hq1 hcp1
    (by simp [hsScene, Player.init])

end CrowdControl
